import Mathlib

/-!
Shallow embedding of the Rockbuster arcade-game simulation core
(src/core/Game.js, src/entities/*, src/systems/*, src/config.js, src/utils/math.js).

Positions, velocities and timers are modelled over `ℚ`.  The JavaScript code
uses the transcendental functions `Math.cos`, `Math.sin`, `Math.atan2`,
`Math.hypot` and the constant `Math.PI`; these have no exact rational
counterpart, so they are abstracted into a `RealFns` record that every theorem
quantifies over.  `Math.random` is modelled by an explicit stream of rational
draws (`Rng`).  All other arithmetic in the source is exact over `ℚ`.
-/

namespace Rockbuster

/-- Game modes of the state machine: `'MENU' | 'PLAY' | 'GAME_OVER'`. -/
inductive Mode where
  | MENU
  | PLAY
  | GAME_OVER
deriving DecidableEq, Repr

/-- Asteroid color variants: `'brown' | 'grey'`. -/
inductive ColorVariant where
  | brown
  | grey
deriving DecidableEq, Repr

/-- Weapon modes from `CONFIG.WEAPON`: `'single' | 'triple' | 'five'`. -/
inductive WeaponMode where
  | single
  | triple
  | five
deriving DecidableEq, Repr

/-- Power-up types: `'tripleShot' | 'extraLife' | 'shield' | 'speed'`. -/
inductive PUType where
  | tripleShot
  | extraLife
  | shield
  | speed
deriving DecidableEq, Repr

/-! ### CONFIG (src/config.js) — rational-valued constants -/

def CANVAS_W : ℚ := 960
def CANVAS_H : ℚ := 540

def SHIP_RADIUS : ℚ := 14
def SHIP_ACCEL : ℚ := 180
def SHIP_FRICTION : ℚ := 985 / 1000
def SHIP_MAX_SPEED : ℚ := 340
def SHIP_FIRE_COOLDOWN : ℚ := 18 / 100
def SHIP_RESPAWN_INVULN : ℚ := 3
def SHIP_INVULN_BLINK_INTERVAL : ℚ := 15 / 100
def SHIP_LIVES : Int := 3
def SHIP_MAX_LIVES : Int := 5
def SHIELD_MAX_LEVEL : Nat := 2
def SHIELD_HIT_INVULN : ℚ := 1
def SPEED_POWERUP_MAX_LEVEL : Nat := 5
def SPEED_POWERUP_ACCEL_BONUS : ℚ := 45
def SPEED_POWERUP_MAX_SPEED_BONUS : ℚ := 55

def BULLET_SPEED : ℚ := 520
def BULLET_LIFETIME : ℚ := 12 / 10
def BULLET_RADIUS : ℚ := 2

def ASTEROID_SPEED_MIN : ℚ := 30
def ASTEROID_SPEED_MAX : ℚ := 120
def ASTEROID_SIZES : List ℚ := [42, 28, 18]
def ASTEROID_SPLIT_COUNT : Nat := 2
def ASTEROID_SPEED_GROWTH_PER_WAVE : ℚ := 1 / 10

def UFO_RADIUS : ℚ := 22
def UFO_SPEED : ℚ := 180
def UFO_SPRITES : List String := ["ufoBlue", "ufoGreen", "ufoRed", "ufoYellow"]
def UFO_HITS_TO_DESTROY : Nat := 3
def UFO_SCORE_VALUE : Nat := 750
def UFO_FIRE_INTERVAL : ℚ := 15 / 10
def UFO_LASER_SPEED : ℚ := 360
def UFO_LASER_LIFETIME : ℚ := 25 / 10
def UFO_OFFSCREEN_MARGIN : ℚ := 36
def UFO_TIMER_START : ℚ := 30
def UFO_TIMER_DECREMENT_PER_WAVE : ℚ := 12 / 10
def UFO_TIMER_MIN : ℚ := 6

def WAVES_START_COUNT : Nat := 4
def WAVES_GROWTH : Nat := 1

def SCORE_SMALL : Nat := 100
def SCORE_MED : Nat := 50
def SCORE_LARGE : Nat := 20

def POWERUP_RADIUS : ℚ := 14
def POWERUP_SPEED_MIN : ℚ := 20
def POWERUP_SPEED_MAX : ℚ := 60
def POWERUP_OFFSCREEN_MARGIN : ℚ := 40

/-- Spawn models for power-ups (`rules.model` in `CONFIG.POWERUP.types`). -/
inductive SpawnModel where
  | chance
  | interval
deriving DecidableEq, Repr

/-- Per-type power-up rules from `CONFIG.POWERUP.types`. -/
structure PowerUpRules where
  model : SpawnModel
  chancePerWave : ℚ
  everyNWaves : Nat
  duplicateScore : Nat
deriving DecidableEq, Repr

/-- `CONFIG.POWERUP.types`, in object-insertion order
(`tripleShot`, `extraLife`, `shield`, `speed`). -/
def POWERUP_TYPES : List (PUType × PowerUpRules) :=
  [ (PUType.tripleShot, ⟨SpawnModel.chance, 35 / 100, 3, 5000⟩),
    (PUType.extraLife, ⟨SpawnModel.chance, 35 / 100, 5, 2000⟩),
    (PUType.shield, ⟨SpawnModel.chance, 35 / 100, 4, 4000⟩),
    (PUType.speed, ⟨SpawnModel.chance, 30 / 100, 3, 2500⟩) ]

/-! ### Abstracted real-valued primitives and randomness -/

/-- Abstraction of the transcendental primitives used by the source
(`Math.cos`, `Math.sin`, `Math.atan2`, `Math.hypot`, `Math.PI`).  The claims
settled below do not depend on their values, so the model (and every theorem)
is parametric in them. -/
structure RealFns where
  cos : ℚ → ℚ
  sin : ℚ → ℚ
  atan2 : ℚ → ℚ → ℚ
  hypot : ℚ → ℚ → ℚ
  pi : ℚ

/-- `CONFIG.WEAPON.SPREAD_RAD = Math.PI / 12`. -/
def SPREAD_RAD (O : RealFns) : ℚ := O.pi / 12

/-- `CONFIG.SHIP.TURN_SPEED = Math.PI`. -/
def SHIP_TURN_SPEED (O : RealFns) : ℚ := O.pi

/-- Model of `Math.random()`: a stream of rational draws with a cursor. -/
structure Rng where
  seq : Nat → ℚ
  idx : Nat

/-- Take the next random draw. -/
def Rng.next (g : Rng) : ℚ × Rng :=
  (g.seq g.idx, { g with idx := g.idx + 1 })

/-! ### src/utils/math.js -/

/-- `clamp = (v, a, b) => Math.max(a, Math.min(b, v))`. -/
def clamp (v a b : ℚ) : ℚ := max a (min b v)

/-- `wrap = (v, max) => (v < 0 ? v + max : v >= max ? v - max : v)`. -/
def wrap (v mx : ℚ) : ℚ := if v < 0 then v + mx else if v ≥ mx then v - mx else v

/-- `randRange = (a, b) => a + Math.random() * (b - a)`. -/
def randRange (a b : ℚ) (g : Rng) : ℚ × Rng :=
  let (d, g1) := g.next
  (a + d * (b - a), g1)

/-- `randSign = () => (Math.random() < 0.5 ? -1 : 1)`. -/
def randSign (g : Rng) : ℚ × Rng :=
  let (d, g1) := g.next
  (if d < 1 / 2 then -1 else 1, g1)

/-! ### Collision circles (src/systems/Collision.js) -/

/-- Just the `{ x, y, r }` view of an entity, used by `circleHit`. -/
structure Circ where
  x : ℚ
  y : ℚ
  r : ℚ
deriving DecidableEq, Repr

/-- `circleHit(a, b)`: squared center distance compared against squared radius
sum (no square root). -/
def circleHit (a b : Circ) : Bool :=
  let dx := a.x - b.x
  let dy := a.y - b.y
  let rr := (a.r + b.r) * (a.r + b.r)
  decide (dx * dx + dy * dy ≤ rr)

/-! ### Entities -/

/-- Base entity (src/entities/Entity.js): position, radius, velocity, dead flag. -/
structure Entity where
  x : ℚ
  y : ℚ
  r : ℚ
  vx : ℚ
  vy : ℚ
  dead : Bool
deriving DecidableEq, Repr

/-- `new Entity(x, y, r)`. -/
def Entity.create (x y r : ℚ) : Entity :=
  { x := x, y := y, r := r, vx := 0, vy := 0, dead := false }

/-- `integrateAndWrap(entity)` (src/systems/Physics.js): apply `wrap` to both
coordinates against the canvas dimensions. -/
def integrateAndWrap (e : Entity) : Entity :=
  { e with x := wrap e.x CANVAS_W, y := wrap e.y CANVAS_H }

/-- Player ship (src/entities/Ship.js). -/
structure Ship where
  x : ℚ
  y : ℚ
  r : ℚ
  vx : ℚ
  vy : ℚ
  dead : Bool
  angle : ℚ
  cooldown : ℚ
  invuln : ℚ
  invulnElapsed : ℚ
  isInvulnVisible : Bool
  weaponMode : WeaponMode
  baseAccel : ℚ
  baseMaxSpeed : ℚ
  speedLevel : Nat
  maxSpeedLevel : Nat
  accelBonusPerLevel : ℚ
  maxSpeedBonusPerLevel : ℚ
  currentAccel : ℚ
  currentMaxSpeed : ℚ
  shieldLevel : Nat
  spriteTier : Nat
deriving DecidableEq, Repr

def Ship.circ (s : Ship) : Circ := ⟨s.x, s.y, s.r⟩

/-- `resetInvulnBlink()`. -/
def Ship.resetInvulnBlink (s : Ship) : Ship :=
  { s with invulnElapsed := 0, isInvulnVisible := true }

/-- `recalculateSpeedStats()`. -/
def Ship.recalculateSpeedStats (s : Ship) : Ship :=
  { s with currentAccel := s.baseAccel + s.speedLevel * s.accelBonusPerLevel,
           currentMaxSpeed := s.baseMaxSpeed + s.speedLevel * s.maxSpeedBonusPerLevel }

/-- `setShieldLevel(level)` — clamps to `[0, 2]` and syncs `spriteTier`. -/
def Ship.setShieldLevel (s : Ship) (level : Nat) : Ship :=
  let clampedLevel := min 2 level
  { s with shieldLevel := clampedLevel, spriteTier := clampedLevel }

/-- `new Ship(x, y, { invulnBlink })`. -/
def Ship.create (x y : ℚ) (invulnBlink : Bool) : Ship :=
  let s : Ship :=
    { x := x, y := y, r := SHIP_RADIUS, vx := 0, vy := 0, dead := false,
      angle := 0, cooldown := 0,
      invuln := if invulnBlink then SHIP_RESPAWN_INVULN else 0,
      invulnElapsed := 0, isInvulnVisible := true,
      weaponMode := WeaponMode.single,
      baseAccel := SHIP_ACCEL, baseMaxSpeed := SHIP_MAX_SPEED,
      speedLevel := 0, maxSpeedLevel := SPEED_POWERUP_MAX_LEVEL,
      accelBonusPerLevel := SPEED_POWERUP_ACCEL_BONUS,
      maxSpeedBonusPerLevel := SPEED_POWERUP_MAX_SPEED_BONUS,
      currentAccel := 0, currentMaxSpeed := 0,
      shieldLevel := 0, spriteTier := 0 }
  ((s.resetInvulnBlink).recalculateSpeedStats).setShieldLevel 0

/-- `new Ship(...)` faces up: `this.angle = -Math.PI / 2` (the constructor's
angle needs `Math.PI`, supplied by the `RealFns` oracle). -/
def Ship.createWithAngle (O : RealFns) (x y : ℚ) (invulnBlink : Bool) : Ship :=
  { Ship.create x y invulnBlink with angle := -O.pi / 2 }

/-- `canFire()`. -/
def Ship.canFire (s : Ship) : Bool := decide (s.cooldown ≤ 0)

/-- `didFire()`. -/
def Ship.didFire (s : Ship) : Ship := { s with cooldown := SHIP_FIRE_COOLDOWN }

/-- `increaseSpeedLevel()` — returns whether the level increased. -/
def Ship.increaseSpeedLevel (s : Ship) : Bool × Ship :=
  if s.speedLevel ≥ s.maxSpeedLevel then (false, s)
  else (true, ({ s with speedLevel := s.speedLevel + 1 }).recalculateSpeedStats)

/-- `resetSpeedLevel()`. -/
def Ship.resetSpeedLevel (s : Ship) : Ship :=
  ({ s with speedLevel := 0 }).recalculateSpeedStats

/-- `increaseShieldLevel()` — returns whether the shield increased. -/
def Ship.increaseShieldLevel (s : Ship) : Bool × Ship :=
  if s.shieldLevel ≥ SHIELD_MAX_LEVEL then (false, s)
  else (true, { s with shieldLevel := min SHIELD_MAX_LEVEL (s.shieldLevel + 1) })

/-- `decreaseShieldLevel()` — returns whether the shield decreased. -/
def Ship.decreaseShieldLevel (s : Ship) : Bool × Ship :=
  if s.shieldLevel ≤ 0 then (false, s)
  else (true, { s with shieldLevel := s.shieldLevel - 1 })

/-! ### Input (src/core/Input.js) — the per-tick view the simulation consumes -/

/-- Keyboard state as seen from one fixed tick: `isDown(code)` and
`pressed(code)`. -/
structure Input where
  isDown : String → Bool
  pressed : String → Bool

/-- `Ship.update(dt, input)` (src/entities/Ship.js): rotation, thrust,
friction, speed clamp, position integration, cooldown and invulnerability
blink.  The blink `while` loop is expressed in closed form: it toggles the
visible flag `⌊elapsed / interval⌋` times and keeps the remainder. -/
def Ship.update (O : RealFns) (dt : ℚ) (input : Input) (s : Ship) : Ship :=
  let accel := s.currentAccel
  let maxSpeed := s.currentMaxSpeed
  let angle1 := if input.isDown "ArrowLeft" || input.isDown "KeyA" then
      s.angle - SHIP_TURN_SPEED O * dt else s.angle
  let angle2 := if input.isDown "ArrowRight" || input.isDown "KeyD" then
      angle1 + SHIP_TURN_SPEED O * dt else angle1
  let (vx1, vy1) := if input.isDown "ArrowUp" || input.isDown "KeyW" then
      (s.vx + O.cos angle2 * accel * dt, s.vy + O.sin angle2 * accel * dt)
    else (s.vx, s.vy)
  let vx2 := vx1 * SHIP_FRICTION
  let vy2 := vy1 * SHIP_FRICTION
  let speed := O.hypot vx2 vy2
  let (vx3, vy3) := if speed > maxSpeed then
      (vx2 * (maxSpeed / speed), vy2 * (maxSpeed / speed)) else (vx2, vy2)
  let x1 := s.x + vx3 * dt
  let y1 := s.y + vy3 * dt
  let cooldown1 := max 0 (s.cooldown - dt)
  let prevInvuln := s.invuln
  let invuln1 := max 0 (s.invuln - dt)
  let s1 := { s with angle := angle2, vx := vx3, vy := vy3, x := x1, y := y1,
                     cooldown := cooldown1, invuln := invuln1 }
  if invuln1 > 0 then
    let interval := SHIP_INVULN_BLINK_INTERVAL
    let e := s.invulnElapsed + dt
    let n := (Int.floor (e / interval)).toNat
    { s1 with invulnElapsed := e - n * interval,
              isInvulnVisible := if n % 2 = 1 then !s.isInvulnVisible else s.isInvulnVisible }
  else if prevInvuln > 0 then s1.resetInvulnBlink
  else s1

/-- Player bullet (src/entities/Bullet.js). -/
structure Bullet where
  x : ℚ
  y : ℚ
  r : ℚ
  vx : ℚ
  vy : ℚ
  dead : Bool
  angle : ℚ
  lifetime : ℚ
deriving DecidableEq, Repr

def Bullet.circ (b : Bullet) : Circ := ⟨b.x, b.y, b.r⟩

/-- `new Bullet(x, y, angle)`. -/
def Bullet.create (O : RealFns) (x y angle : ℚ) : Bullet :=
  { x := x, y := y, r := BULLET_RADIUS,
    vx := O.cos angle * BULLET_SPEED, vy := O.sin angle * BULLET_SPEED,
    dead := false, angle := angle, lifetime := BULLET_LIFETIME }

/-- `Bullet.update(dt)`: integrate, count down lifetime, recompute `angle`
from velocity when nonzero. -/
def Bullet.update (O : RealFns) (dt : ℚ) (b : Bullet) : Bullet :=
  let b1 := { b with x := b.x + b.vx * dt, y := b.y + b.vy * dt,
                     lifetime := b.lifetime - dt }
  let b2 := if b1.lifetime ≤ 0 then { b1 with dead := true } else b1
  if b2.vx ≠ 0 ∨ b2.vy ≠ 0 then { b2 with angle := O.atan2 b2.vy b2.vx } else b2

/-- `Ship.fire()` (src/entities/Ship.js): spawn 1, 3 or 5 bullets depending on
the weapon mode, all at the nose offset, then trigger the cooldown. -/
def Ship.fire (O : RealFns) (s : Ship) : List Bullet × Ship :=
  let baseAngle := s.angle
  let noseX := s.x + O.cos baseAngle * (s.r + 2)
  let noseY := s.y + O.sin baseAngle * (s.r + 2)
  let spread := SPREAD_RAD O
  let bullets :=
    match s.weaponMode with
    | WeaponMode.five =>
        [ Bullet.create O noseX noseY (baseAngle - spread * 2),
          Bullet.create O noseX noseY (baseAngle - spread),
          Bullet.create O noseX noseY baseAngle,
          Bullet.create O noseX noseY (baseAngle + spread),
          Bullet.create O noseX noseY (baseAngle + spread * 2) ]
    | WeaponMode.triple =>
        [ Bullet.create O noseX noseY (baseAngle - spread),
          Bullet.create O noseX noseY baseAngle,
          Bullet.create O noseX noseY (baseAngle + spread) ]
    | WeaponMode.single =>
        [ Bullet.create O noseX noseY baseAngle ]
  (bullets, s.didFire)

/-- Asteroid hazard (src/entities/Asteroid.js). -/
structure Asteroid where
  x : ℚ
  y : ℚ
  r : ℚ
  vx : ℚ
  vy : ℚ
  dead : Bool
  sizeIndex : Nat
  colorVariant : ColorVariant
  speedMultiplier : ℚ
  spin : ℚ
  angle : ℚ
deriving DecidableEq, Repr

def Asteroid.circ (a : Asteroid) : Circ := ⟨a.x, a.y, a.r⟩

/-- `new Asteroid(x, y, sizeIndex, { colorVariant, speedMultiplier })`.
The `colorVariant ?? (Math.random() < 0.5 ? 'brown' : 'grey')` draw only
happens when no variant is supplied; velocity, spin and angle each consume
draws in source order. -/
def Asteroid.create (O : RealFns) (g : Rng) (x y : ℚ) (sizeIndex : Nat)
    (colorVariant : Option ColorVariant) (speedMultiplier : ℚ) : Asteroid × Rng :=
  let r := ASTEROID_SIZES.getD sizeIndex 0
  let (color, g1) :=
    match colorVariant with
    | some c => (c, g)
    | none =>
        let (d, g') := g.next
        (if d < 1 / 2 then ColorVariant.brown else ColorVariant.grey, g')
  let (baseSpeed, g2) := randRange ASTEROID_SPEED_MIN ASTEROID_SPEED_MAX g1
  let speed := baseSpeed * speedMultiplier
  let (sx, g3) := randSign g2
  let (dx, g4) := g3.next
  let (sy, g5) := randSign g4
  let (dy, g6) := g5.next
  let (spin, g7) := randRange (-1) 1 g6
  let (da, g8) := g7.next
  ({ x := x, y := y, r := r, vx := sx * speed * dx, vy := sy * speed * dy,
     dead := false, sizeIndex := sizeIndex, colorVariant := color,
     speedMultiplier := speedMultiplier, spin := spin, angle := da * O.pi * 2 },
   g8)

/-- `Asteroid.update(dt)`. -/
def Asteroid.update (dt : ℚ) (a : Asteroid) : Asteroid :=
  { a with x := a.x + a.vx * dt, y := a.y + a.vy * dt, angle := a.angle + a.spin * dt }

/-- Helper for `Asteroid.split()`: build `n` children at the parent position
and next tier, inheriting the parent's color variant and speed multiplier. -/
def Asteroid.splitChildren (O : RealFns) (a : Asteroid) (next : Nat) :
    Nat → Rng → List Asteroid × Rng
  | 0, g => ([], g)
  | n + 1, g =>
    let made := Asteroid.create O g a.x a.y next (some a.colorVariant) a.speedMultiplier
    let rest := Asteroid.splitChildren O a next n made.2
    (made.1 :: rest.1, rest.2)

/-- `Asteroid.split()`: empty when the next tier would exceed the size table,
otherwise `SPLIT_COUNT` children one tier smaller. -/
def Asteroid.split (O : RealFns) (a : Asteroid) (g : Rng) : List Asteroid × Rng :=
  if a.sizeIndex + 1 ≥ ASTEROID_SIZES.length then ([], g)
  else Asteroid.splitChildren O a (a.sizeIndex + 1) ASTEROID_SPLIT_COUNT g

/-- Power-up pickup (src/entities/PowerUp.js). -/
structure PowerUp where
  x : ℚ
  y : ℚ
  r : ℚ
  vx : ℚ
  vy : ℚ
  dead : Bool
  ptype : PUType
  angle : ℚ
  spin : ℚ
deriving DecidableEq, Repr

def PowerUp.circ (p : PowerUp) : Circ := ⟨p.x, p.y, p.r⟩

/-- `new PowerUp(x, y, type)` — drift velocity, angle and spin consume random
draws in source order. -/
def PowerUp.create (O : RealFns) (g : Rng) (x y : ℚ) (ptype : PUType) : PowerUp × Rng :=
  let (speed, g1) := randRange POWERUP_SPEED_MIN POWERUP_SPEED_MAX g
  let (sx, g2) := randSign g1
  let (dx, g3) := g2.next
  let (sy, g4) := randSign g3
  let (dy, g5) := g4.next
  let (da, g6) := g5.next
  let (spin, g7) := randRange (-(8 / 10)) (8 / 10) g6
  ({ x := x, y := y, r := POWERUP_RADIUS, vx := sx * speed * dx, vy := sy * speed * dy,
     dead := false, ptype := ptype, angle := da * O.pi * 2, spin := spin },
   g7)

/-- `PowerUp.update(dt)`. -/
def PowerUp.update (dt : ℚ) (p : PowerUp) : PowerUp :=
  { p with x := p.x + p.vx * dt, y := p.y + p.vy * dt, angle := p.angle + p.spin * dt }

/-- UFO laser projectile (src/entities/UfoLaser.js). -/
structure UfoLaser where
  x : ℚ
  y : ℚ
  r : ℚ
  vx : ℚ
  vy : ℚ
  dead : Bool
  angle : ℚ
  lifetime : ℚ
deriving DecidableEq, Repr

def UfoLaser.circ (l : UfoLaser) : Circ := ⟨l.x, l.y, l.r⟩

/-- `new UfoLaser(x, y, angle)` — radius is the literal `6`. -/
def UfoLaser.create (O : RealFns) (x y angle : ℚ) : UfoLaser :=
  { x := x, y := y, r := 6,
    vx := O.cos angle * UFO_LASER_SPEED, vy := O.sin angle * UFO_LASER_SPEED,
    dead := false, angle := angle, lifetime := UFO_LASER_LIFETIME }

/-- `UfoLaser.update(dt)`: straight-line motion, no wrap; dies on lifetime
expiry or when leaving the margin box around the play area. -/
def UfoLaser.update (dt : ℚ) (l : UfoLaser) : UfoLaser :=
  let l1 := { l with x := l.x + l.vx * dt, y := l.y + l.vy * dt,
                     lifetime := l.lifetime - dt }
  if l1.lifetime ≤ 0 then { l1 with dead := true }
  else if l1.x < -UFO_OFFSCREEN_MARGIN ∨ l1.x > CANVAS_W + UFO_OFFSCREEN_MARGIN ∨
          l1.y < -UFO_OFFSCREEN_MARGIN ∨ l1.y > CANVAS_H + UFO_OFFSCREEN_MARGIN then
    { l1 with dead := true }
  else l1

/-- Enemy UFO (src/entities/Ufo.js). -/
structure Ufo where
  x : ℚ
  y : ℚ
  r : ℚ
  vx : ℚ
  vy : ℚ
  dead : Bool
  spriteKey : String
  health : Nat
  fireCooldown : ℚ
deriving DecidableEq, Repr

def Ufo.circ (u : Ufo) : Circ := ⟨u.x, u.y, u.r⟩

/-- `new Ufo({ x, y, vx, vy, spriteKey })`. -/
def Ufo.create (x y vx vy : ℚ) (spriteKey : String) : Ufo :=
  { x := x, y := y, r := UFO_RADIUS, vx := vx, vy := vy, dead := false,
    spriteKey := spriteKey, health := UFO_HITS_TO_DESTROY,
    fireCooldown := UFO_FIRE_INTERVAL }

/-- `Ufo.update(dt, target)`: integrate, wrap across the margin box, and fire
a laser straight at the target once the cooldown elapses. -/
def Ufo.update (O : RealFns) (dt : ℚ) (target : Ship) (u : Ufo) : List UfoLaser × Ufo :=
  if u.dead then ([], u)
  else
    let x1 := u.x + u.vx * dt
    let y1 := u.y + u.vy * dt
    let x2 := if u.vx ≠ 0 then
        (if x1 < -UFO_OFFSCREEN_MARGIN then CANVAS_W + UFO_OFFSCREEN_MARGIN
         else if x1 > CANVAS_W + UFO_OFFSCREEN_MARGIN then -UFO_OFFSCREEN_MARGIN
         else x1)
      else x1
    let y2 := if u.vy ≠ 0 then
        (if y1 < -UFO_OFFSCREEN_MARGIN then CANVAS_H + UFO_OFFSCREEN_MARGIN
         else if y1 > CANVAS_H + UFO_OFFSCREEN_MARGIN then -UFO_OFFSCREEN_MARGIN
         else y1)
      else y1
    let cd1 := u.fireCooldown - dt
    if cd1 ≤ 0 then
      let angle := O.atan2 (target.y - y2) (target.x - x2)
      ([UfoLaser.create O x2 y2 angle],
       { u with x := x2, y := y2, fireCooldown := UFO_FIRE_INTERVAL })
    else
      ([], { u with x := x2, y := y2, fireCooldown := cd1 })

/-- `Ufo.takeHit()`: decrement health; mark dead and report destruction when
health reaches 0. -/
def Ufo.takeHit (u : Ufo) : Bool × Ufo :=
  if u.dead then (false, u)
  else
    let h1 := u.health - 1
    if h1 ≤ 0 then (true, { u with health := h1, dead := true })
    else (false, { u with health := h1 })

/-! ### Game state (src/core/Game.js) -/

/-- The run state built by `createInitialState()` together with the
game-level score fields (`this.highScore`, `this._lastPersistedHighScore`)
that live on the `Game` object itself. -/
structure GameState where
  mode : Mode
  wave : Nat
  score : Nat
  lives : Int
  stateHighScore : Nat
  didBeatHighScore : Bool
  ship : Ship
  bullets : List Bullet
  asteroids : List Asteroid
  powerups : List PowerUp
  powerupsCollected : Nat
  ufo : Option Ufo
  ufoBullets : List UfoLaser
  ufoSpawnTimer : Option ℚ
  ufoSpawnedThisWave : Bool
  highScore : Nat
  lastPersistedHighScore : Nat
deriving DecidableEq, Repr

/-- Tier-dependent score for destroying an asteroid
(`idx === 2 → SMALL, idx === 1 → MED, else LARGE`). -/
def tierScore (idx : Nat) : Nat :=
  if idx = 2 then SCORE_SMALL else if idx = 1 then SCORE_MED else SCORE_LARGE

/-- `updateHighScore(score)` — bump the stored high score (and the mirror in
run state) when exceeded, flag the beat, and record the persistence write
threshold. -/
def updateHighScore (s : GameState) : GameState :=
  if s.score ≤ s.highScore then s
  else
    let s1 := { s with highScore := s.score, stateHighScore := s.score,
                       didBeatHighScore := true }
    if s1.lastPersistedHighScore < s.score then
      { s1 with lastPersistedHighScore := s.score }
    else s1

/-! ### Bullet × asteroid collisions
(`forEachBulletAsteroidHit` in src/systems/Collision.js composed with the
`onHit` callback of `Game._handleBulletCollisions`). -/

/-- The inner loop of `forEachBulletAsteroidHit` for one bullet: scan the
asteroid list, skip dead or non-overlapping ones, and stop at the first hit
(`break`).  Returns the list with that asteroid marked dead together with the
asteroid itself, or `none` when the bullet hits nothing. -/
def markFirstHit (b : Bullet) : List Asteroid → Option (List Asteroid × Asteroid)
  | [] => none
  | a :: rest =>
    if ¬a.dead ∧ circleHit b.circ a.circ then some ({ a with dead := true } :: rest, a)
    else (markFirstHit b rest).map (fun p => (a :: p.1, p.2))

/-- Resolution of one bullet against the (growing) asteroid collection: mark
both dead, award the tier score, update the high score, and append the split
children — exactly the `onHit` callback of `_handleBulletCollisions`. -/
def bulletStep (O : RealFns) (g : Rng) (s : GameState) (b : Bullet) :
    Bullet × GameState × Rng :=
  if b.dead then (b, s, g)
  else
    match markFirstHit b s.asteroids with
    | none => (b, s, g)
    | some (marked, a) =>
      let s1 := updateHighScore
        { s with asteroids := marked, score := s.score + tierScore a.sizeIndex }
      let split := Asteroid.split O a g
      ({ b with dead := true },
       { s1 with asteroids := s1.asteroids ++ split.1 }, split.2)

/-- The outer loop of `forEachBulletAsteroidHit`: each bullet is resolved once,
in order, against the current asteroid collection. -/
def bulletsPass (O : RealFns) : Rng → GameState → List Bullet →
    List Bullet × GameState × Rng
  | g, s, [] => ([], s, g)
  | g, s, b :: bs =>
    let one := bulletStep O g s b
    let rest := bulletsPass O one.2.2 one.2.1 bs
    (one.1 :: rest.1, rest.2.1, rest.2.2)

/-- The bullet × UFO loop of `_handleBulletCollisions`: each live bullet that
overlaps a live UFO dies and registers a hit; destruction awards the flat UFO
score and clears the UFO slot. -/
def bulletUfoPass : GameState → List Bullet → List Bullet × GameState
  | s, [] => ([], s)
  | s, b :: bs =>
    match s.ufo with
    | some u =>
      if ¬b.dead ∧ ¬u.dead ∧ circleHit b.circ u.circ then
        let b' := { b with dead := true }
        let hit := u.takeHit
        let s1 := { s with ufo := some hit.2 }
        let s2 :=
          if hit.1 then
            { updateHighScore { s1 with score := s1.score + UFO_SCORE_VALUE } with
              ufo := none }
          else s1
        let rest := bulletUfoPass s2 bs
        (b' :: rest.1, rest.2)
      else
        let rest := bulletUfoPass s bs
        (b :: rest.1, rest.2)
    | none =>
      let rest := bulletUfoPass s bs
      (b :: rest.1, rest.2)

/-- `Game._handleBulletCollisions()`. -/
def handleBulletCollisions (O : RealFns) (g : Rng) (s : GameState) : GameState × Rng :=
  let pass1 := bulletsPass O g s s.bullets
  let pass2 := bulletUfoPass pass1.2.1 pass1.1
  ({ pass2.2 with bullets := pass2.1 }, pass1.2.2)

/-! ### Ship damage and ship × hazard collisions -/

/-- The `damageShip` closure defined inside `Game.update`.  `absorb` is the
`onShieldAbsorb` callback; `scoreBonus` defaults to 0 at the call sites that
omit it.  Returns the JS boolean result (`false` exactly when the run ends)
together with the updated state. -/
def damageShip (O : RealFns) (absorb : GameState → GameState) (scoreBonus : Nat)
    (s : GameState) : Bool × GameState :=
  if s.ship.shieldLevel > 0 then
    let s1 := absorb s
    let s2 :=
      if scoreBonus ≠ 0 then
        updateHighScore { s1 with score := s1.score + scoreBonus }
      else s1
    let sh1 := (s2.ship.decreaseShieldLevel).2
    let sh2 := ({ sh1 with invuln := SHIELD_HIT_INVULN }).resetInvulnBlink
    (true, { s2 with ship := sh2 })
  else
    let s1 := { s with lives := s.lives - 1 }
    if s1.lives ≤ 0 then
      (false, updateHighScore { s1 with mode := Mode.GAME_OVER })
    else
      let sh := (Ship.createWithAngle O (CANVAS_W / 2) (CANVAS_H / 2) true).resetSpeedLevel
      (true, { s1 with ship := sh })

/-- `findShipAsteroidHit(ship, asteroids)` (src/systems/Collision.js) combined
with the deferred `hitAsteroid.dead = true` mutation of the absorb callback:
locate the first live overlapping asteroid and also produce the collection
with exactly that asteroid marked dead. -/
def markShipHit (sh : Ship) : List Asteroid → Option (List Asteroid × Asteroid)
  | [] => none
  | a :: rest =>
    if ¬a.dead ∧ circleHit sh.circ a.circ then some ({ a with dead := true } :: rest, a)
    else (markShipHit sh rest).map (fun p => (a :: p.1, p.2))

/-- The ship × UFO-laser loop at the end of `_handleShipHazardCollisions`:
skip dead or non-overlapping lasers, honor the in-loop invulnerability check,
and stop (`break`) after the first resolved hit. -/
def laserLoop (O : RealFns) : GameState → List UfoLaser → Bool × GameState × List UfoLaser
  | s, [] => (true, s, [])
  | s, l :: ls =>
    if l.dead ∨ ¬circleHit s.ship.circ l.circ ∨ s.ship.invuln > 0 then
      let rest := laserLoop O s ls
      (rest.1, rest.2.1, l :: rest.2.2)
    else
      let l' := { l with dead := true }
      let dmg := damageShip O id 0 s
      if ¬dmg.1 ∨ dmg.2.mode = Mode.GAME_OVER then (false, dmg.2, l' :: ls)
      else (true, dmg.2, l' :: ls)

/-- The ship × UFO body check inside `_handleShipHazardCollisions`. -/
def shipUfoCheck (O : RealFns) (s : GameState) : Bool × GameState :=
  match s.ufo with
  | some u =>
    if ¬u.dead ∧ circleHit s.ship.circ u.circ then damageShip O id 0 s
    else (true, s)
  | none => (true, s)

/-- The tail of `_handleShipHazardCollisions` after the asteroid branch: the
GAME_OVER guard, the ship × UFO check, and the ship × laser loop. -/
def shipHazardRest (O : RealFns) (s : GameState) : Bool × GameState :=
  if s.mode = Mode.GAME_OVER then (false, s)
  else if s.ship.invuln ≤ 0 then
    let afterUfo := shipUfoCheck O s
    if ¬afterUfo.1 ∨ afterUfo.2.mode = Mode.GAME_OVER then (false, afterUfo.2)
    else
      let s1 := afterUfo.2
      if s1.ship.invuln ≤ 0 then
        let looped := laserLoop O s1 s1.ufoBullets
        (looped.1, { looped.2.1 with ufoBullets := looped.2.2 })
      else (true, s1)
  else (true, s)

/-- `Game._handleShipHazardCollisions(damageShip)`. -/
def handleShipHazardCollisions (O : RealFns) (s : GameState) : Bool × GameState :=
  match markShipHit s.ship s.asteroids with
  | some (marked, a) =>
    let scoreBonus := tierScore a.sizeIndex
    let dmg := damageShip O (fun t => { t with asteroids := marked }) scoreBonus s
    if ¬dmg.1 ∨ dmg.2.mode = Mode.GAME_OVER then (false, dmg.2)
    else shipHazardRest O dmg.2
  | none => shipHazardRest O s

/-! ### Power-up pickups (`Game._handlePowerupCollisions`) -/

/-- Effect of picking up one power-up (the body of the type dispatch). -/
def applyPowerUpEffect (s : GameState) (t : PUType) : GameState :=
  match t with
  | PUType.tripleShot =>
    if s.ship.weaponMode = WeaponMode.five then
      updateHighScore { s with score := s.score + 5000 }
    else if s.ship.weaponMode = WeaponMode.triple then
      { s with ship := { s.ship with weaponMode := WeaponMode.five } }
    else
      { s with ship := { s.ship with weaponMode := WeaponMode.triple } }
  | PUType.extraLife =>
    if s.lives < SHIP_MAX_LIVES then
      { s with lives := min SHIP_MAX_LIVES (s.lives + 1) }
    else
      updateHighScore { s with score := s.score + 2000 }
  | PUType.shield =>
    if s.ship.shieldLevel < SHIELD_MAX_LEVEL then
      let inc := s.ship.increaseShieldLevel
      if inc.1 then { s with ship := inc.2 }
      else updateHighScore { s with score := s.score + 4000 }
    else
      updateHighScore { s with score := s.score + 4000 }
  | PUType.speed =>
    let inc := s.ship.increaseSpeedLevel
    if inc.1 then { s with ship := inc.2 }
    else updateHighScore { s with ship := inc.2, score := s.score + 2500 }

/-- The pickup loop of `_handlePowerupCollisions`. -/
def powerupPass : GameState → List PowerUp → List PowerUp × GameState
  | s, [] => ([], s)
  | s, pu :: pus =>
    if ¬pu.dead ∧ circleHit s.ship.circ pu.circ then
      let s1 := applyPowerUpEffect
        { s with powerupsCollected := s.powerupsCollected + 1 } pu.ptype
      let rest := powerupPass s1 pus
      ({ pu with dead := true } :: rest.1, rest.2)
    else
      let rest := powerupPass s pus
      (pu :: rest.1, rest.2)

/-- `Game._handlePowerupCollisions()`. -/
def handlePowerupCollisions (s : GameState) : GameState :=
  let pass := powerupPass s s.powerups
  { pass.2 with powerups := pass.1 }

/-! ### Spawning (src/systems/Spawner.js) -/

/-- `randomEdgeSpawn(W, H, margin)`: pick one of the four edges and a random
position along it. -/
def randomEdgeSpawn (g : Rng) (W H margin : ℚ) : ℚ × ℚ × Rng :=
  let (d, g1) := g.next
  let edge := (Int.floor (d * 4)).toNat
  if edge = 0 then
    let (d2, g2) := g1.next
    (-margin, d2 * H, g2)
  else if edge = 1 then
    let (d2, g2) := g1.next
    (W + margin, d2 * H, g2)
  else if edge = 2 then
    let (d2, g2) := g1.next
    (d2 * W, -margin, g2)
  else if edge = 3 then
    let (d2, g2) := g1.next
    (d2 * W, H + margin, g2)
  else (0, 0, g1)

/-- The loop body of `spawnWave`: build `n` tier-0 asteroids at random edge
positions with a 50/50 color draw and the wave's speed multiplier. -/
def spawnAsteroids (O : RealFns) (speedMultiplier : ℚ) :
    Nat → Rng → List Asteroid × Rng
  | 0, g => ([], g)
  | n + 1, g =>
    let pos := randomEdgeSpawn g CANVAS_W CANVAS_H POWERUP_OFFSCREEN_MARGIN
    let draw := pos.2.2.next
    let colorVariant := if draw.1 < 1 / 2 then ColorVariant.brown else ColorVariant.grey
    let made := Asteroid.create O draw.2 pos.1 pos.2.1 0 (some colorVariant) speedMultiplier
    let rest := spawnAsteroids O speedMultiplier n made.2
    (made.1 :: rest.1, rest.2)

/-- `spawnWave(state)`: push `START_COUNT + wave × GROWTH` tier-0 asteroids
with speed multiplier `1 + wave × SPEED_GROWTH_PER_WAVE`. -/
def spawnWave (O : RealFns) (g : Rng) (s : GameState) : GameState × Rng :=
  let count := WAVES_START_COUNT + s.wave * WAVES_GROWTH
  let speedMultiplier := 1 + (s.wave : ℚ) * ASTEROID_SPEED_GROWTH_PER_WAVE
  let fresh := spawnAsteroids O speedMultiplier count g
  ({ s with asteroids := s.asteroids ++ fresh.1 }, fresh.2)

/-- `shouldSpawnType(rules, wave)`. -/
def shouldSpawnType (rules : PowerUpRules) (wave : Nat) (g : Rng) : Bool × Rng :=
  match rules.model with
  | SpawnModel.chance =>
    let chance := max 0 (min 1 rules.chancePerWave)
    let (d, g1) := g.next
    (decide (d < chance), g1)
  | SpawnModel.interval =>
    if rules.everyNWaves = 0 then (false, g)
    else (decide (wave % rules.everyNWaves = 0), g)

/-- The per-type loop of `maybeSpawnPowerUp`: independent rolls in config
order, each success spawning one pickup at a random edge. -/
def maybeSpawnPowerUpList (O : RealFns) (wave : Nat) :
    List (PUType × PowerUpRules) → Rng → List PowerUp × Rng
  | [], g => ([], g)
  | (t, rules) :: rest, g =>
    let roll := shouldSpawnType rules wave g
    if roll.1 then
      let pos := randomEdgeSpawn roll.2 CANVAS_W CANVAS_H POWERUP_OFFSCREEN_MARGIN
      let made := PowerUp.create O pos.2.2 pos.1 pos.2.1 t
      let more := maybeSpawnPowerUpList O wave rest made.2
      (made.1 :: more.1, more.2)
    else maybeSpawnPowerUpList O wave rest roll.2

/-- `maybeSpawnPowerUp(state)`. -/
def maybeSpawnPowerUp (O : RealFns) (g : Rng) (s : GameState) : GameState × Rng :=
  let fresh := maybeSpawnPowerUpList O s.wave POWERUP_TYPES g
  ({ s with powerups := s.powerups ++ fresh.1 }, fresh.2)

/-! ### UFO spawn-timer management (src/core/Game.js) -/

/-- `getUfoSpawnDelayForWave(wave)`: linear decay floored at the minimum. -/
def getUfoSpawnDelayForWave (wave : Nat) : ℚ :=
  max UFO_TIMER_MIN (UFO_TIMER_START - (wave : ℚ) * UFO_TIMER_DECREMENT_PER_WAVE)

/-- `resetUfoStateForWave()`. -/
def resetUfoStateForWave (s : GameState) : GameState :=
  { s with ufo := none, ufoBullets := [], ufoSpawnedThisWave := false,
           ufoSpawnTimer := some (getUfoSpawnDelayForWave s.wave) }

/-- `spawnUfoForCurrentWave()`: random sprite, random edge, purely horizontal
or vertical constant velocity. -/
def spawnUfoForCurrentWave (g : Rng) (s : GameState) : GameState × Rng :=
  let (d1, g1) := g.next
  let spriteKey := UFO_SPRITES.getD (Int.floor (d1 * UFO_SPRITES.length)).toNat ""
  let (d2, g2) := g1.next
  let horizontal := d2 < 1 / 2
  if horizontal then
    let (d3, g3) := g2.next
    let y := d3 * CANVAS_H
    let (d4, g4) := g3.next
    let fromLeft := d4 < 1 / 2
    let x := if fromLeft then -UFO_OFFSCREEN_MARGIN else CANVAS_W + UFO_OFFSCREEN_MARGIN
    let vx := if fromLeft then UFO_SPEED else -UFO_SPEED
    ({ s with ufo := some (Ufo.create x y vx 0 spriteKey),
              ufoSpawnedThisWave := true, ufoSpawnTimer := none }, g4)
  else
    let (d3, g3) := g2.next
    let x := d3 * CANVAS_W
    let (d4, g4) := g3.next
    let fromTop := d4 < 1 / 2
    let y := if fromTop then -UFO_OFFSCREEN_MARGIN else CANVAS_H + UFO_OFFSCREEN_MARGIN
    let vy := if fromTop then UFO_SPEED else -UFO_SPEED
    ({ s with ufo := some (Ufo.create x y 0 vy spriteKey),
              ufoSpawnedThisWave := true, ufoSpawnTimer := none }, g4)

/-- The UFO spawn-timer block of `Game.update`: tick the timer down only
while no UFO is alive and none has spawned this wave; spawn on expiry. -/
def ufoTimerStep (dt : ℚ) (g : Rng) (s : GameState) : GameState × Rng :=
  match s.ufo, s.ufoSpawnTimer with
  | none, some t =>
    if s.ufoSpawnedThisWave then (s, g)
    else
      let t1 := max 0 (t - dt)
      if t1 ≤ 0 then spawnUfoForCurrentWave g { s with ufoSpawnTimer := some t1 }
      else ({ s with ufoSpawnTimer := some t1 }, g)
  | _, _ => (s, g)

/-- The UFO behaviour block of `Game.update`: advance the UFO, collect the
lasers it fires, and clear a dead UFO from its slot. -/
def ufoStep (O : RealFns) (dt : ℚ) (s : GameState) : GameState :=
  match s.ufo with
  | some u =>
    let upd := Ufo.update O dt s.ship u
    let s1 := { s with ufo := some upd.2, ufoBullets := s.ufoBullets ++ upd.1 }
    if upd.2.dead then { s1 with ufo := none } else s1
  | none => s

/-! ### Screen wrapping applied by the tick (src/systems/Physics.js) -/

def wrapShip (sh : Ship) : Ship :=
  { sh with x := wrap sh.x CANVAS_W, y := wrap sh.y CANVAS_H }

def wrapBullet (b : Bullet) : Bullet :=
  { b with x := wrap b.x CANVAS_W, y := wrap b.y CANVAS_H }

def wrapAsteroid (a : Asteroid) : Asteroid :=
  { a with x := wrap a.x CANVAS_W, y := wrap a.y CANVAS_H }

def wrapPowerUp (p : PowerUp) : PowerUp :=
  { p with x := wrap p.x CANVAS_W, y := wrap p.y CANVAS_H }

/-! ### The PLAY tick and the state machine (src/core/Game.js) -/

/-- Dead-entity cleanup at the end of a PLAY tick. -/
def cleanupDead (s : GameState) : GameState :=
  { s with bullets := s.bullets.filter (fun b => ¬b.dead),
           asteroids := s.asteroids.filter (fun a => ¬a.dead),
           powerups := s.powerups.filter (fun p => ¬p.dead),
           ufoBullets := s.ufoBullets.filter (fun l => ¬l.dead) }

/-- Ship control update followed by the firing check of `Game.update`. -/
def tickShipAndFire (O : RealFns) (input : Input) (dt : ℚ) (s : GameState) : GameState :=
  let s1 := { s with ship := s.ship.update O dt input }
  if (input.isDown "Space" || input.pressed "KeyJ") && s1.ship.canFire then
    let fired := s1.ship.fire O
    { s1 with ship := fired.2, bullets := s1.bullets ++ fired.1 }
  else s1

/-- Entity-local updates for bullets, asteroids and power-ups. -/
def tickEntityUpdates (O : RealFns) (dt : ℚ) (s : GameState) : GameState :=
  { s with bullets := s.bullets.map (Bullet.update O dt),
           asteroids := s.asteroids.map (Asteroid.update dt),
           powerups := s.powerups.map (PowerUp.update dt) }

/-- Toroidal wrapping applied to ship, bullets, asteroids and power-ups
(UFO lasers deliberately do not wrap). -/
def tickWrapAll (s : GameState) : GameState :=
  { s with ship := wrapShip s.ship,
           bullets := s.bullets.map wrapBullet,
           asteroids := s.asteroids.map wrapAsteroid,
           powerups := s.powerups.map wrapPowerUp }

/-- The invulnerability-gated ship × hazard phase of `Game.update`; the flag
is `false` exactly when the tick must end early. -/
def tickHazardPhase (O : RealFns) (s : GameState) : GameState × Bool :=
  if s.ship.invuln ≤ 0 then
    let dmg := handleShipHazardCollisions O s
    if ¬dmg.1 ∨ dmg.2.mode = Mode.GAME_OVER then (dmg.2, false) else (dmg.2, true)
  else (s, true)

/-- The PLAY branch of `Game.update(dt)` up to and including dead-entity
cleanup.  The returned flag is `true` when control reaches the wave
progression check and `false` when the tick ended early (GAME_OVER after
bullet collisions, or a fatal / run-ending ship collision). -/
def playTickBody (O : RealFns) (input : Input) (dt : ℚ) (g : Rng) (s : GameState) :
    GameState × Rng × Bool :=
  let s3 := tickEntityUpdates O dt (tickShipAndFire O input dt s)
  let timed := ufoTimerStep dt g s3
  let s5 := ufoStep O dt timed.1
  let s6 := { s5 with ufoBullets := s5.ufoBullets.map (UfoLaser.update dt) }
  let s7 := tickWrapAll s6
  let coll := handleBulletCollisions O timed.2 s7
  if coll.1.mode = Mode.GAME_OVER then (coll.1, coll.2, false)
  else
    let hz := tickHazardPhase O coll.1
    if hz.2 then
      (cleanupDead (updateHighScore (handlePowerupCollisions hz.1)), coll.2, true)
    else (hz.1, coll.2, false)

/-- The wave-progression check at the end of `Game.update`: a new wave begins
exactly when the asteroid collection is empty while the mode is PLAY. -/
def progressionStep (O : RealFns) (g : Rng) (s : GameState) : GameState × Rng :=
  if s.asteroids.length = 0 ∧ s.mode = Mode.PLAY then
    let s1 := { s with wave := s.wave + 1 }
    let waved := spawnWave O g s1
    let rolled := maybeSpawnPowerUp O waved.2 waved.1
    (resetUfoStateForWave rolled.1, rolled.2)
  else (s, g)

/-- `createInitialState()` plus the game-level score fields that survive a
state rebuild (`this.highScore`, `this._lastPersistedHighScore`). -/
def createInitialState (O : RealFns) (s : GameState) : GameState :=
  { mode := Mode.MENU, wave := 0, score := 0, lives := SHIP_LIVES,
    stateHighScore := s.highScore, didBeatHighScore := false,
    ship := (Ship.createWithAngle O (CANVAS_W / 2) (CANVAS_H / 2) false).resetSpeedLevel,
    bullets := [], asteroids := [], powerups := [], powerupsCollected := 0,
    ufo := none, ufoBullets := [], ufoSpawnTimer := none, ufoSpawnedThisWave := false,
    highScore := s.highScore, lastPersistedHighScore := s.lastPersistedHighScore }

/-- `Game.startGame()`: the MENU → PLAY transition.  A guard makes it a no-op
in any other mode. -/
def startGame (O : RealFns) (g : Rng) (s : GameState) : GameState × Rng :=
  if s.mode ≠ Mode.MENU then (s, g)
  else
    let s1 := { s with mode := Mode.PLAY, wave := 0, score := 0, lives := SHIP_LIVES,
                       stateHighScore := s.highScore, didBeatHighScore := false,
                       ship := (Ship.createWithAngle O (CANVAS_W / 2) (CANVAS_H / 2)
                         false).resetSpeedLevel,
                       bullets := [], asteroids := [] }
    let waved := spawnWave O g s1
    let rolled := maybeSpawnPowerUp O waved.2 waved.1
    (resetUfoStateForWave rolled.1, rolled.2)

/-- `Game.reset()`: rebuild the run state and jump straight into PLAY. -/
def reset (O : RealFns) (g : Rng) (s : GameState) : GameState × Rng :=
  let s1 := { createInitialState O s with mode := Mode.PLAY }
  let waved := spawnWave O g s1
  let rolled := maybeSpawnPowerUp O waved.2 waved.1
  (resetUfoStateForWave rolled.1, rolled.2)

/-- `Game.update(dt)`: the per-tick state machine.  MENU and GAME_OVER ticks
only poll for the start/restart command; PLAY runs the simulation body
followed by the wave-progression check. -/
def update (O : RealFns) (input : Input) (dt : ℚ) (g : Rng) (s : GameState) :
    GameState × Rng :=
  match s.mode with
  | Mode.MENU =>
    if input.pressed "Enter" || input.pressed "Space" then startGame O g s else (s, g)
  | Mode.GAME_OVER =>
    if input.pressed "Enter" then reset O g s else (s, g)
  | Mode.PLAY =>
    let body := playTickBody O input dt g s
    if body.2.2 then progressionStep O body.2.1 body.1 else (body.1, body.2.1)

/-! ### Concrete fixtures used by witnesses and counterexamples -/

/-- Oracle instance with all transcendental primitives pinned to 0 — the
claims never depend on their values. -/
def zeroFns : RealFns :=
  { cos := fun _ => 0, sin := fun _ => 0, atan2 := fun _ _ => 0,
    hypot := fun _ _ => 0, pi := 0 }

/-- Random stream that always draws 0. -/
def zeroRng : Rng := { seq := fun _ => 0, idx := 0 }

/-- No keys held or pressed. -/
def idleInput : Input := { isDown := fun _ => false, pressed := fun _ => false }

/-- A ship parked at the canvas center with no spawn invulnerability. -/
def testShip : Ship := Ship.create (CANVAS_W / 2) (CANVAS_H / 2) false

/-- A stationary tier-0 asteroid at the canvas center. -/
def testAsteroid0 : Asteroid :=
  { x := CANVAS_W / 2, y := CANVAS_H / 2, r := 42, vx := 0, vy := 0, dead := false,
    sizeIndex := 0, colorVariant := ColorVariant.brown, speedMultiplier := 1,
    spin := 0, angle := 0 }

/-- A minimal PLAY-mode run state. -/
def testState : GameState :=
  { mode := Mode.PLAY, wave := 0, score := 0, lives := 3, stateHighScore := 0,
    didBeatHighScore := false, ship := testShip, bullets := [], asteroids := [],
    powerups := [], powerupsCollected := 0, ufo := none, ufoBullets := [],
    ufoSpawnTimer := none, ufoSpawnedThisWave := false, highScore := 0,
    lastPersistedHighScore := 0 }

/-! ### Field lemmas for the randomized asteroid constructor -/

theorem Asteroid.create_fields (O : RealFns) (g : Rng) (x y : ℚ) (i : Nat)
    (c : ColorVariant) (m : ℚ) :
    (Asteroid.create O g x y i (some c) m).1.x = x ∧
    (Asteroid.create O g x y i (some c) m).1.y = y ∧
    (Asteroid.create O g x y i (some c) m).1.sizeIndex = i ∧
    (Asteroid.create O g x y i (some c) m).1.colorVariant = c ∧
    (Asteroid.create O g x y i (some c) m).1.speedMultiplier = m ∧
    (Asteroid.create O g x y i (some c) m).1.dead = false :=
  ⟨rfl, rfl, rfl, rfl, rfl, rfl⟩

theorem Asteroid.splitChildren_spec (O : RealFns) (a : Asteroid) (next : Nat) :
    ∀ (n : Nat) (g : Rng),
      (Asteroid.splitChildren O a next n g).1.length = n ∧
      ∀ c ∈ (Asteroid.splitChildren O a next n g).1,
        c.sizeIndex = next ∧ c.x = a.x ∧ c.y = a.y ∧
        c.colorVariant = a.colorVariant ∧ c.speedMultiplier = a.speedMultiplier := by
  intro n
  induction n with
  | zero => intro g; simp [Asteroid.splitChildren]
  | succ k ih =>
    intro g
    have hc := Asteroid.create_fields O g a.x a.y next a.colorVariant a.speedMultiplier
    constructor
    · simp [Asteroid.splitChildren, (ih _).1]
    · intro c hc'
      simp only [Asteroid.splitChildren, List.mem_cons] at hc'
      rcases hc' with h | h
      · subst h
        exact ⟨hc.2.2.1, hc.1, hc.2.1, hc.2.2.2.1, hc.2.2.2.2.1⟩
      · exact (ih _).2 c h

/-! ### C3 — wrap range -/

/-- Range of `wrap` on inputs within one screen length of the bound. -/
theorem wrap_mem_Ico (v mx : ℚ) (hlo : -mx ≤ v) (hhi : v < 2 * mx) :
    0 ≤ wrap v mx ∧ wrap v mx < mx := by
  unfold wrap
  split_ifs with h1 h2
  · constructor <;> linarith
  · constructor <;> linarith
  · constructor <;> linarith

/-- C3 counterexample: the entity starting at `x = -1000` is wrapped to
`x = -40`, which is not in `[0, CANVAS_W)` — `wrap` only corrects by a single
period, so coordinates farther than one screen length out stay out of range. -/
theorem C3_counterexample :
    ¬(0 ≤ (integrateAndWrap (Entity.create (-1000) 10 5)).x ∧
      (integrateAndWrap (Entity.create (-1000) 10 5)).x < CANVAS_W) := by
  norm_num [integrateAndWrap, Entity.create, wrap, CANVAS_W]

/-- C3 (amended): after `integrateAndWrap`, an entity's coordinates satisfy
`0 ≤ x < width` and `0 ≤ y < height`, provided the starting coordinates lie
within one screen length of the canvas (`-W ≤ x < 2W`, `-H ≤ y < 2H`);
equivalently `wrap v max ∈ [0, max)` for `v ∈ [-max, 2·max)`. -/
theorem C3_wrap_range (e : Entity) (v mx : ℚ)
    (hx1 : -CANVAS_W ≤ e.x) (hx2 : e.x < 2 * CANVAS_W)
    (hy1 : -CANVAS_H ≤ e.y) (hy2 : e.y < 2 * CANVAS_H)
    (hv1 : -mx ≤ v) (hv2 : v < 2 * mx) :
    (0 ≤ (integrateAndWrap e).x ∧ (integrateAndWrap e).x < CANVAS_W) ∧
    (0 ≤ (integrateAndWrap e).y ∧ (integrateAndWrap e).y < CANVAS_H) ∧
    (0 ≤ wrap v mx ∧ wrap v mx < mx) :=
  ⟨wrap_mem_Ico e.x CANVAS_W hx1 hx2, wrap_mem_Ico e.y CANVAS_H hy1 hy2,
   wrap_mem_Ico v mx hv1 hv2⟩

/-- C3 witness: the amended range theorem applied to the concrete entity at
`(-100, 50)` and to `wrap 1000 960`. -/
theorem C3_wrap_range_witness :
    ((-CANVAS_W ≤ (Entity.create (-100) 50 5).x ∧
      (Entity.create (-100) 50 5).x < 2 * CANVAS_W ∧
      -CANVAS_H ≤ (Entity.create (-100) 50 5).y ∧
      (Entity.create (-100) 50 5).y < 2 * CANVAS_H ∧
      -(960 : ℚ) ≤ 1000 ∧ (1000 : ℚ) < 2 * 960) ∧
     (0 ≤ (integrateAndWrap (Entity.create (-100) 50 5)).x ∧
      (integrateAndWrap (Entity.create (-100) 50 5)).x < CANVAS_W) ∧
     (0 ≤ (integrateAndWrap (Entity.create (-100) 50 5)).y ∧
      (integrateAndWrap (Entity.create (-100) 50 5)).y < CANVAS_H) ∧
     (0 ≤ wrap 1000 960 ∧ wrap 1000 960 < 960)) :=
  ⟨by norm_num [Entity.create, CANVAS_W, CANVAS_H],
   C3_wrap_range (Entity.create (-100) 50 5) 1000 960
     (by norm_num [Entity.create, CANVAS_W]) (by norm_num [Entity.create, CANVAS_W])
     (by norm_num [Entity.create, CANVAS_H]) (by norm_num [Entity.create, CANVAS_H])
     (by norm_num) (by norm_num)⟩

/-- C6: splitting a tier-0 asteroid yields exactly `SPLIT_COUNT` tier-1
children at the parent's position, inheriting its color variant and speed
multiplier; splitting a tier-2 asteroid yields no children. -/
theorem C6_split (O : RealFns) (g : Rng) (a : Asteroid) (h0 : a.sizeIndex = 0) :
    ((Asteroid.split O a g).1.length = ASTEROID_SPLIT_COUNT ∧
      ∀ c ∈ (Asteroid.split O a g).1,
        c.sizeIndex = 1 ∧ c.x = a.x ∧ c.y = a.y ∧
        c.colorVariant = a.colorVariant ∧ c.speedMultiplier = a.speedMultiplier) ∧
    ∀ (b : Asteroid) (g' : Rng), b.sizeIndex = 2 → (Asteroid.split O b g').1 = [] := by
  constructor
  · have hspec := Asteroid.splitChildren_spec O a 1 ASTEROID_SPLIT_COUNT g
    have hsplit : Asteroid.split O a g =
        Asteroid.splitChildren O a 1 ASTEROID_SPLIT_COUNT g := by
      simp [Asteroid.split, h0, ASTEROID_SIZES]
    rw [hsplit]
    exact hspec
  · intro b g' h2
    simp [Asteroid.split, h2, ASTEROID_SIZES]

/-- C6 witness: splitting the concrete tier-0 asteroid fixture. -/
theorem C6_split_witness :
    testAsteroid0.sizeIndex = 0 ∧
    ((Asteroid.split zeroFns testAsteroid0 zeroRng).1.length = ASTEROID_SPLIT_COUNT ∧
      ∀ c ∈ (Asteroid.split zeroFns testAsteroid0 zeroRng).1,
        c.sizeIndex = 1 ∧ c.x = testAsteroid0.x ∧ c.y = testAsteroid0.y ∧
        c.colorVariant = testAsteroid0.colorVariant ∧
        c.speedMultiplier = testAsteroid0.speedMultiplier) ∧
    ∀ (b : Asteroid) (g' : Rng), b.sizeIndex = 2 →
      (Asteroid.split zeroFns b g').1 = [] :=
  ⟨rfl, C6_split zeroFns zeroRng testAsteroid0 rfl⟩

/-- C7: firing in weapon mode `five` produces exactly 5 bullets at angles
`baseAngle + k × SPREAD_RAD` for `k ∈ {-2, -1, 0, 1, 2}`, all spawned at the
same nose-offset position ahead of the ship. -/
theorem C7_fire_five (O : RealFns) (s : Ship) (h : s.weaponMode = WeaponMode.five) :
    (s.fire O).1.length = 5 ∧
    (s.fire O).1.map Bullet.angle =
      [s.angle + (-2) * SPREAD_RAD O, s.angle + (-1) * SPREAD_RAD O,
       s.angle + 0 * SPREAD_RAD O, s.angle + 1 * SPREAD_RAD O,
       s.angle + 2 * SPREAD_RAD O] ∧
    ∀ b ∈ (s.fire O).1,
      b.x = s.x + O.cos s.angle * (s.r + 2) ∧
      b.y = s.y + O.sin s.angle * (s.r + 2) := by
  refine ⟨?_, ?_, ?_⟩
  · simp [Ship.fire, h]
  · simp only [Ship.fire, h, Bullet.create, List.map_cons, List.map_nil,
      List.cons.injEq, and_true]
    repeat' apply And.intro
    all_goals first | rfl | ring
  · intro b hb
    simp [Ship.fire, h, Bullet.create] at hb
    rcases hb with h1 | h1 | h1 | h1 | h1 <;> subst h1 <;> exact ⟨rfl, rfl⟩

/-- C7 witness: firing the concrete ship upgraded to weapon mode `five`. -/
theorem C7_fire_five_witness :
    ({ testShip with weaponMode := WeaponMode.five } : Ship).weaponMode =
      WeaponMode.five ∧
    (({ testShip with weaponMode := WeaponMode.five } : Ship).fire zeroFns).1.length = 5 ∧
    (({ testShip with weaponMode := WeaponMode.five } : Ship).fire zeroFns).1.map
        Bullet.angle =
      [({ testShip with weaponMode := WeaponMode.five } : Ship).angle +
         (-2) * SPREAD_RAD zeroFns,
       ({ testShip with weaponMode := WeaponMode.five } : Ship).angle +
         (-1) * SPREAD_RAD zeroFns,
       ({ testShip with weaponMode := WeaponMode.five } : Ship).angle +
         0 * SPREAD_RAD zeroFns,
       ({ testShip with weaponMode := WeaponMode.five } : Ship).angle +
         1 * SPREAD_RAD zeroFns,
       ({ testShip with weaponMode := WeaponMode.five } : Ship).angle +
         2 * SPREAD_RAD zeroFns] ∧
    ∀ b ∈ (({ testShip with weaponMode := WeaponMode.five } : Ship).fire zeroFns).1,
      b.x = ({ testShip with weaponMode := WeaponMode.five } : Ship).x +
        zeroFns.cos ({ testShip with weaponMode := WeaponMode.five } : Ship).angle *
          (({ testShip with weaponMode := WeaponMode.five } : Ship).r + 2) ∧
      b.y = ({ testShip with weaponMode := WeaponMode.five } : Ship).y +
        zeroFns.sin ({ testShip with weaponMode := WeaponMode.five } : Ship).angle *
          (({ testShip with weaponMode := WeaponMode.five } : Ship).r + 2) :=
  ⟨rfl, C7_fire_five zeroFns { testShip with weaponMode := WeaponMode.five } rfl⟩

/-- C10: `startGame()` is a no-op in any mode other than MENU — the whole
game state (and the random stream) is returned unchanged. -/
theorem C10_startGame_noop (O : RealFns) (g : Rng) (s : GameState)
    (h : s.mode ≠ Mode.MENU) : startGame O g s = (s, g) := by
  simp [startGame, h]

/-- C10 witness: `startGame` applied to the PLAY-mode fixture. -/
theorem C10_startGame_noop_witness :
    testState.mode ≠ Mode.MENU ∧
    startGame zeroFns zeroRng testState = (testState, zeroRng) :=
  ⟨by simp [testState], C10_startGame_noop zeroFns zeroRng testState (by simp [testState])⟩


/-! ### Frame lemmas: `updateHighScore` only touches the score bookkeeping -/

theorem updateHighScore_ship (s : GameState) : (updateHighScore s).ship = s.ship := by
  unfold updateHighScore
  split
  · rfl
  · dsimp only
    split <;> rfl

theorem updateHighScore_lives (s : GameState) : (updateHighScore s).lives = s.lives := by
  unfold updateHighScore
  split
  · rfl
  · dsimp only
    split <;> rfl

theorem updateHighScore_mode (s : GameState) : (updateHighScore s).mode = s.mode := by
  unfold updateHighScore
  split
  · rfl
  · dsimp only
    split <;> rfl

theorem updateHighScore_wave (s : GameState) : (updateHighScore s).wave = s.wave := by
  unfold updateHighScore
  split
  · rfl
  · dsimp only
    split <;> rfl

theorem updateHighScore_score (s : GameState) : (updateHighScore s).score = s.score := by
  unfold updateHighScore
  split
  · rfl
  · dsimp only
    split <;> rfl

theorem updateHighScore_asteroids (s : GameState) :
    (updateHighScore s).asteroids = s.asteroids := by
  unfold updateHighScore
  split
  · rfl
  · dsimp only
    split <;> rfl

theorem updateHighScore_bullets (s : GameState) :
    (updateHighScore s).bullets = s.bullets := by
  unfold updateHighScore
  split
  · rfl
  · dsimp only
    split <;> rfl

theorem updateHighScore_powerups (s : GameState) :
    (updateHighScore s).powerups = s.powerups := by
  unfold updateHighScore
  split
  · rfl
  · dsimp only
    split <;> rfl

theorem updateHighScore_ufo (s : GameState) : (updateHighScore s).ufo = s.ufo := by
  unfold updateHighScore
  split
  · rfl
  · dsimp only
    split <;> rfl

theorem updateHighScore_ufoBullets (s : GameState) :
    (updateHighScore s).ufoBullets = s.ufoBullets := by
  unfold updateHighScore
  split
  · rfl
  · dsimp only
    split <;> rfl

/-! ### Branch lemmas for `damageShip` -/

/-- Shield-absorption branch of `damageShip`: with shield level > 0 the hit is
absorbed — shield drops by exactly one, a short invulnerability window is
granted, lives are untouched, and only the absorb callback touches the world. -/
theorem damageShip_shield (O : RealFns) (absorb : GameState → GameState) (bonus : Nat)
    (s : GameState) (h : 0 < s.ship.shieldLevel)
    (habs : (absorb s).ship = s.ship) :
    (damageShip O absorb bonus s).1 = true ∧
    (damageShip O absorb bonus s).2.ship.shieldLevel = s.ship.shieldLevel - 1 ∧
    (damageShip O absorb bonus s).2.ship.invuln = SHIELD_HIT_INVULN ∧
    (damageShip O absorb bonus s).2.lives = (absorb s).lives ∧
    (damageShip O absorb bonus s).2.mode = (absorb s).mode ∧
    (damageShip O absorb bonus s).2.asteroids = (absorb s).asteroids ∧
    (damageShip O absorb bonus s).2.score = (absorb s).score + bonus ∧
    (damageShip O absorb bonus s).2.wave = (absorb s).wave ∧
    (damageShip O absorb bonus s).2.bullets = (absorb s).bullets ∧
    (damageShip O absorb bonus s).2.ufoBullets = (absorb s).ufoBullets := by
  unfold damageShip
  rw [if_pos h]
  dsimp only
  by_cases hb : bonus = 0
  · subst hb
    rw [if_neg (by simp)]
    refine ⟨rfl, ?_, rfl, rfl, rfl, rfl, rfl, rfl, rfl, rfl⟩
    dsimp only [Ship.resetInvulnBlink]
    rw [habs]
    unfold Ship.decreaseShieldLevel
    rw [if_neg (by omega)]
  · rw [if_pos hb]
    refine ⟨rfl, ?_, rfl, by simp [updateHighScore_lives], by simp [updateHighScore_mode],
      by simp [updateHighScore_asteroids], by simp [updateHighScore_score],
      by simp [updateHighScore_wave], by simp [updateHighScore_bullets],
      by simp [updateHighScore_ufoBullets]⟩
    dsimp only [Ship.resetInvulnBlink]
    rw [updateHighScore_ship]
    dsimp only
    rw [habs]
    unfold Ship.decreaseShieldLevel
    rw [if_neg (by omega)]

/-- No-shield branch of `damageShip`: a life is lost; with no lives left the
run ends, otherwise a fresh centered ship replaces the old one. -/
theorem damageShip_noShield (O : RealFns) (absorb : GameState → GameState) (bonus : Nat)
    (s : GameState) (h : s.ship.shieldLevel = 0) :
    (damageShip O absorb bonus s).2.lives = s.lives - 1 ∧
    (s.lives - 1 ≤ 0 →
      (damageShip O absorb bonus s).1 = false ∧
      (damageShip O absorb bonus s).2.mode = Mode.GAME_OVER) ∧
    (0 < s.lives - 1 →
      (damageShip O absorb bonus s).1 = true ∧
      (damageShip O absorb bonus s).2.mode = s.mode ∧
      (damageShip O absorb bonus s).2.ship =
        (Ship.createWithAngle O (CANVAS_W / 2) (CANVAS_H / 2) true).resetSpeedLevel) := by
  unfold damageShip
  rw [if_neg (by omega)]
  by_cases hl : s.lives - 1 ≤ 0
  · rw [if_pos (show ({ s with lives := s.lives - 1 } : GameState).lives ≤ 0 from hl)]
    refine ⟨by simp [updateHighScore_lives], fun _ => ⟨rfl, by simp [updateHighScore_mode]⟩,
      fun hc => absurd hc (by omega)⟩
  · rw [if_neg (show ¬({ s with lives := s.lives - 1 } : GameState).lives ≤ 0 from hl)]
    exact ⟨rfl, fun hc => absurd hc hl, fun _ => ⟨rfl, rfl, rfl⟩⟩

/-- C2: a damaging hit with shield level > 0 decrements the shield by exactly
1 and leaves lives unchanged; with shield level 0 it decrements lives by
exactly 1, entering GAME_OVER iff the resulting lives are ≤ 0, and otherwise
staying in PLAY with a freshly created centered ship. -/
theorem C2_damage_rule (O : RealFns) (absorb : GameState → GameState) (bonus : Nat)
    (s : GameState) (hmode : s.mode = Mode.PLAY)
    (habs1 : ∀ t, (absorb t).ship = t.ship)
    (habs2 : ∀ t, (absorb t).lives = t.lives)
    (habs3 : ∀ t, (absorb t).mode = t.mode) :
    (0 < s.ship.shieldLevel →
      (damageShip O absorb bonus s).2.ship.shieldLevel = s.ship.shieldLevel - 1 ∧
      (damageShip O absorb bonus s).2.lives = s.lives ∧
      (damageShip O absorb bonus s).2.mode = Mode.PLAY) ∧
    (s.ship.shieldLevel = 0 →
      (damageShip O absorb bonus s).2.lives = s.lives - 1 ∧
      ((damageShip O absorb bonus s).2.mode = Mode.GAME_OVER ↔ s.lives - 1 ≤ 0) ∧
      (0 < s.lives - 1 →
        (damageShip O absorb bonus s).2.mode = Mode.PLAY ∧
        (damageShip O absorb bonus s).2.ship =
          (Ship.createWithAngle O (CANVAS_W / 2) (CANVAS_H / 2) true).resetSpeedLevel)) := by
  constructor
  · intro h
    obtain ⟨-, hshield, -, hlives, hm, -⟩ := damageShip_shield O absorb bonus s h (habs1 s)
    exact ⟨hshield, hlives.trans (habs2 s), hm.trans ((habs3 s).trans hmode)⟩
  · intro h
    obtain ⟨hlives, hdead, halive⟩ := damageShip_noShield O absorb bonus s h
    refine ⟨hlives, ?_, fun hp => ⟨((halive hp).2.1).trans hmode, (halive hp).2.2⟩⟩
    constructor
    · intro hgo
      by_contra hc
      have hp : 0 < s.lives - 1 := by omega
      have := ((halive hp).2.1).trans hmode
      rw [this] at hgo
      exact Mode.noConfusion hgo
    · intro hl
      exact (hdead hl).2

/-- C2 witness: the damage rule applied to the concrete PLAY fixture with the
identity absorb callback. -/
theorem C2_damage_rule_witness :
    (testState.mode = Mode.PLAY ∧
      (∀ t : GameState, (id t).ship = t.ship) ∧
      (∀ t : GameState, (id t).lives = t.lives) ∧
      (∀ t : GameState, (id t).mode = t.mode)) ∧
    (0 < testState.ship.shieldLevel →
      (damageShip zeroFns id 0 testState).2.ship.shieldLevel =
        testState.ship.shieldLevel - 1 ∧
      (damageShip zeroFns id 0 testState).2.lives = testState.lives ∧
      (damageShip zeroFns id 0 testState).2.mode = Mode.PLAY) ∧
    (testState.ship.shieldLevel = 0 →
      (damageShip zeroFns id 0 testState).2.lives = testState.lives - 1 ∧
      ((damageShip zeroFns id 0 testState).2.mode = Mode.GAME_OVER ↔
        testState.lives - 1 ≤ 0) ∧
      (0 < testState.lives - 1 →
        (damageShip zeroFns id 0 testState).2.mode = Mode.PLAY ∧
        (damageShip zeroFns id 0 testState).2.ship =
          (Ship.createWithAngle zeroFns (CANVAS_W / 2) (CANVAS_H / 2)
            true).resetSpeedLevel)) :=
  ⟨⟨rfl, fun _ => rfl, fun _ => rfl, fun _ => rfl⟩,
   (C2_damage_rule zeroFns id 0 testState rfl
     (fun _ => rfl) (fun _ => rfl) (fun _ => rfl)).1,
   (C2_damage_rule zeroFns id 0 testState rfl
     (fun _ => rfl) (fun _ => rfl) (fun _ => rfl)).2⟩

/-! ### Ship × asteroid resolution with a shield (C1) -/

/-- Characterization of `markShipHit`: it returns the first live overlapping
asteroid, the earlier entries are all skipped (dead or non-overlapping), and
the returned collection differs from the input only by marking that one
asteroid dead. -/
theorem markShipHit_spec (sh : Ship) :
    ∀ (as marked : List Asteroid) (a : Asteroid),
      markShipHit sh as = some (marked, a) →
      a.dead = false ∧ circleHit sh.circ a.circ = true ∧
      ∃ pre post, as = pre ++ a :: post ∧
        marked = pre ++ { a with dead := true } :: post ∧
        ∀ c ∈ pre, c.dead = true ∨ circleHit sh.circ c.circ = false := by
  intro as
  induction as with
  | nil => intro marked a h; simp [markShipHit] at h
  | cons a' rest ih =>
    intro marked a h
    by_cases hc : ¬a'.dead ∧ circleHit sh.circ a'.circ
    · rw [markShipHit, if_pos hc] at h
      obtain ⟨h1, h2⟩ := Prod.mk.injEq .. ▸ Option.some.injEq .. ▸ h
      subst h2
      refine ⟨by simpa using hc.1, by simpa using hc.2, [], rest, by simp, by simp [← h1], by simp⟩
    · rw [markShipHit, if_neg hc] at h
      match hrec : markShipHit sh rest with
      | none => rw [hrec] at h; simp at h
      | some (m', b) =>
        rw [hrec] at h
        have h' : some ((a' :: m', b) : List Asteroid × Asteroid) = some (marked, a) := h
        obtain ⟨h1, h2⟩ := Prod.mk.injEq .. ▸ Option.some.injEq .. ▸ h'
        subst h2
        obtain ⟨hd, hh, pre', post', hsplit, hmarked, hpre⟩ := ih m' b hrec
        refine ⟨hd, hh, a' :: pre', post', by simp [hsplit], by simp [← h1, hmarked], ?_⟩
        intro c hcmem
        rcases List.mem_cons.mp hcmem with hceq | hcmem'
        · subst hceq
          rcases Decidable.not_and_iff_or_not.mp hc with hdead | hhit
          · exact Or.inl (by simpa using hdead)
          · exact Or.inr (by simpa using hhit)
        · exact hpre c hcmem'

/-- Shared resolution of a shield-absorbed ship × asteroid hit: the handler
reports survival, decrements the shield, grants the short invulnerability
window, leaves lives unchanged, awards the tier score, and replaces the
asteroid collection with the marked one (no split children are appended). -/
theorem shipHazard_absorb_spec (O : RealFns) (s : GameState)
    (marked : List Asteroid) (a : Asteroid)
    (hmode : s.mode = Mode.PLAY)
    (hfind : markShipHit s.ship s.asteroids = some (marked, a))
    (hshield : 0 < s.ship.shieldLevel) :
    (handleShipHazardCollisions O s).1 = true ∧
    (handleShipHazardCollisions O s).2.ship.shieldLevel = s.ship.shieldLevel - 1 ∧
    (handleShipHazardCollisions O s).2.ship.invuln = SHIELD_HIT_INVULN ∧
    (handleShipHazardCollisions O s).2.lives = s.lives ∧
    (handleShipHazardCollisions O s).2.mode = Mode.PLAY ∧
    (handleShipHazardCollisions O s).2.asteroids = marked ∧
    (handleShipHazardCollisions O s).2.score = s.score + tierScore a.sizeIndex := by
  obtain ⟨hd1, hdshield, hdinv, hdlives, hdmode, hdast, hdscore, -⟩ :=
    damageShip_shield O (fun t => { t with asteroids := marked })
      (tierScore a.sizeIndex) s hshield rfl
  have hmodePlay :
      (damageShip O (fun t => { t with asteroids := marked })
        (tierScore a.sizeIndex) s).2.mode = Mode.PLAY := hdmode.trans hmode
  have hmain : handleShipHazardCollisions O s =
      (true, (damageShip O (fun t => { t with asteroids := marked })
        (tierScore a.sizeIndex) s).2) := by
    unfold handleShipHazardCollisions
    rw [hfind]
    dsimp only
    rw [if_neg (by simp [hd1, hmodePlay])]
    unfold shipHazardRest
    rw [if_neg (by simp [hmodePlay])]
    rw [if_neg (by rw [hdinv]; norm_num [SHIELD_HIT_INVULN])]
  rw [hmain]
  exact ⟨rfl, hdshield, hdinv, hdlives.trans rfl, hmodePlay, hdast, hdscore⟩

/-- A ship fixture carrying one shield charge. -/
def shieldedShip : Ship :=
  { x := 480, y := 270, r := 14, vx := 0, vy := 0, dead := false, angle := 0,
    cooldown := 0, invuln := 0, invulnElapsed := 0, isInvulnVisible := true,
    weaponMode := WeaponMode.single, baseAccel := 180, baseMaxSpeed := 340,
    speedLevel := 0, maxSpeedLevel := 5, accelBonusPerLevel := 45,
    maxSpeedBonusPerLevel := 55, currentAccel := 180, currentMaxSpeed := 340,
    shieldLevel := 1, spriteTier := 1 }

/-- PLAY state: shielded ship overlapping one tier-0 asteroid. -/
def shieldState : GameState :=
  { testState with ship := shieldedShip, asteroids := [testAsteroid0] }

/-- In the shield fixture the first live overlapping asteroid is the tier-0
rock, and marking it dead leaves a one-element collection. -/
theorem shieldState_find :
    markShipHit shieldState.ship shieldState.asteroids =
      some ([{ testAsteroid0 with dead := true }], testAsteroid0) := by
  norm_num [markShipHit, shieldState, shieldedShip, testAsteroid0, testState,
    circleHit, Ship.circ, Asteroid.circ, CANVAS_W, CANVAS_H]

/-- C1 counterexample: in the concrete PLAY tick where the shield-1 ship
overlaps a tier-0 asteroid, collision resolution sets the shield to 0, grants
the invulnerability window and leaves lives unchanged — but the asteroid is
only marked dead: no tier-1 children are added to the collection, refuting
the claim's "destroyed and split" part. -/
theorem C1_counterexample :
    (handleShipHazardCollisions zeroFns shieldState).1 = true ∧
    (handleShipHazardCollisions zeroFns shieldState).2.ship.shieldLevel = 0 ∧
    (handleShipHazardCollisions zeroFns shieldState).2.ship.invuln = 1 ∧
    (handleShipHazardCollisions zeroFns shieldState).2.lives = shieldState.lives ∧
    (handleShipHazardCollisions zeroFns shieldState).2.asteroids =
      [{ testAsteroid0 with dead := true }] ∧
    ¬∃ c ∈ (handleShipHazardCollisions zeroFns shieldState).2.asteroids,
        c.sizeIndex = 1 := by
  obtain ⟨h1, h2, h3, h4, h5, h6, h7⟩ :=
    shipHazard_absorb_spec zeroFns shieldState
      [{ testAsteroid0 with dead := true }] testAsteroid0 rfl shieldState_find
      (by norm_num [shieldState, shieldedShip, testState])
  refine ⟨h1, ?_, ?_, h4, h6, ?_⟩
  · rw [h2]; rfl
  · rw [h3]; rfl
  · rw [h6]
    rintro ⟨c, hc, hsize⟩
    simp only [List.mem_singleton] at hc
    subst hc
    simp [testAsteroid0] at hsize

/-- C1 (amended): on a PLAY tick with ship invulnerability ≤ 0, shield level
1 and an overlapping tier-0 asteroid, collision resolution sets the shield to
0, grants a positive invulnerability window, leaves lives unchanged, awards
the asteroid's tier score and marks that asteroid dead — but does *not* split
it: the collection keeps its length and no children are appended (the dead
rock is simply removed by the end-of-tick cleanup). -/
theorem C1_shield_absorb (O : RealFns) (s : GameState) (marked : List Asteroid)
    (a : Asteroid) (hmode : s.mode = Mode.PLAY)
    (hfind : markShipHit s.ship s.asteroids = some (marked, a))
    (hshield : s.ship.shieldLevel = 1) (htier : a.sizeIndex = 0) :
    (handleShipHazardCollisions O s).1 = true ∧
    (handleShipHazardCollisions O s).2.ship.shieldLevel = 0 ∧
    (handleShipHazardCollisions O s).2.ship.invuln = SHIELD_HIT_INVULN ∧
    (0 : ℚ) < SHIELD_HIT_INVULN ∧
    (handleShipHazardCollisions O s).2.lives = s.lives ∧
    (handleShipHazardCollisions O s).2.mode = Mode.PLAY ∧
    (handleShipHazardCollisions O s).2.score = s.score + tierScore a.sizeIndex ∧
    (handleShipHazardCollisions O s).2.asteroids = marked ∧
    (∃ pre post, s.asteroids = pre ++ a :: post ∧
        marked = pre ++ { a with dead := true } :: post) ∧
    (handleShipHazardCollisions O s).2.asteroids.length = s.asteroids.length := by
  obtain ⟨-, -, pre, post, hsplit, hmarked, -⟩ := markShipHit_spec s.ship _ _ _ hfind
  obtain ⟨h1, h2, h3, h4, h5, h6, h7⟩ :=
    shipHazard_absorb_spec O s marked a hmode hfind (by omega)
  refine ⟨h1, by rw [h2, hshield], h3, by norm_num [SHIELD_HIT_INVULN], h4, h5, h7, h6,
    ⟨pre, post, hsplit, hmarked⟩, ?_⟩
  rw [h6, hmarked, hsplit]
  simp

/-- C1 witness: the amended absorb rule applied to the concrete shield
fixture. -/
theorem C1_shield_absorb_witness :
    (shieldState.mode = Mode.PLAY ∧ shieldState.ship.shieldLevel = 1 ∧
      testAsteroid0.sizeIndex = 0) ∧
    ((handleShipHazardCollisions zeroFns shieldState).1 = true ∧
     (handleShipHazardCollisions zeroFns shieldState).2.ship.shieldLevel = 0 ∧
     (handleShipHazardCollisions zeroFns shieldState).2.ship.invuln =
       SHIELD_HIT_INVULN ∧
     (0 : ℚ) < SHIELD_HIT_INVULN ∧
     (handleShipHazardCollisions zeroFns shieldState).2.lives = shieldState.lives ∧
     (handleShipHazardCollisions zeroFns shieldState).2.mode = Mode.PLAY ∧
     (handleShipHazardCollisions zeroFns shieldState).2.score =
       shieldState.score + tierScore testAsteroid0.sizeIndex ∧
     (handleShipHazardCollisions zeroFns shieldState).2.asteroids =
       [{ testAsteroid0 with dead := true }] ∧
     (∃ pre post, shieldState.asteroids = pre ++ testAsteroid0 :: post ∧
         [{ testAsteroid0 with dead := true }] =
           pre ++ { testAsteroid0 with dead := true } :: post) ∧
     (handleShipHazardCollisions zeroFns shieldState).2.asteroids.length =
       shieldState.asteroids.length) :=
  ⟨⟨rfl, rfl, rfl⟩,
   C1_shield_absorb zeroFns shieldState [{ testAsteroid0 with dead := true }]
     testAsteroid0 rfl shieldState_find rfl rfl⟩

/-! ### Bullet × asteroid resolution order (C9) -/

/-- `markFirstHit` resolves exactly the first live overlapping asteroid:
earlier entries that are dead or non-overlapping are passed over untouched,
and everything after the first match is left untouched as well. -/
theorem markFirstHit_first (b : Bullet) :
    ∀ (pre : List Asteroid) (a : Asteroid) (post : List Asteroid),
      (∀ c ∈ pre, c.dead = true ∨ circleHit b.circ c.circ = false) →
      a.dead = false → circleHit b.circ a.circ = true →
      markFirstHit b (pre ++ a :: post) =
        some (pre ++ { a with dead := true } :: post, a) := by
  intro pre
  induction pre with
  | nil =>
    intro a post hpre hd hh
    rw [List.nil_append, markFirstHit, if_pos (by simp [hd, hh])]
    rfl
  | cons c rest ih =>
    intro a post hpre hd hh
    have hc : ¬(¬c.dead ∧ circleHit b.circ c.circ) := by
      rcases hpre c (List.mem_cons_self ..) with h | h
      · simp [h]
      · simp [h]
    rw [List.cons_append, markFirstHit, if_neg hc,
      ih a post (fun d hd' => hpre d (List.mem_cons_of_mem _ hd')) hd hh]
    rfl

/-- C9: a live bullet resolves against at most one asteroid — the first live
overlapping one in collection order.  That bullet and that asteroid die, the
asteroid's split children are appended, a tier-dependent score is awarded
(tier 2, the smallest, scoring highest), and every other asteroid — including
later overlapping ones — is left untouched. -/
theorem C9_one_hit_per_bullet (O : RealFns) (g : Rng) (s : GameState) (b : Bullet)
    (pre post : List Asteroid) (a : Asteroid)
    (hb : b.dead = false)
    (hall : s.asteroids = pre ++ a :: post)
    (hpre : ∀ c ∈ pre, c.dead = true ∨ circleHit b.circ c.circ = false)
    (ha : a.dead = false) (hh : circleHit b.circ a.circ = true) :
    markFirstHit b s.asteroids = some (pre ++ { a with dead := true } :: post, a) ∧
    (bulletStep O g s b).1.dead = true ∧
    (bulletStep O g s b).2.1.asteroids =
      (pre ++ { a with dead := true } :: post) ++ (Asteroid.split O a g).1 ∧
    (bulletStep O g s b).2.1.score = s.score + tierScore a.sizeIndex ∧
    tierScore 1 < tierScore 2 ∧ tierScore 0 < tierScore 1 := by
  have hfind := markFirstHit_first b pre a post hpre ha hh
  rw [← hall] at hfind
  have hstep : bulletStep O g s b =
      ({ b with dead := true },
       { updateHighScore
           { s with asteroids := pre ++ { a with dead := true } :: post,
                    score := s.score + tierScore a.sizeIndex } with
         asteroids :=
           (updateHighScore
             { s with asteroids := pre ++ { a with dead := true } :: post,
                      score := s.score + tierScore a.sizeIndex }).asteroids ++
           (Asteroid.split O a g).1 },
       (Asteroid.split O a g).2) := by
    unfold bulletStep
    rw [if_neg (by simp [hb]), hfind]
  rw [hstep]
  refine ⟨hfind, rfl, ?_, ?_, ?_, ?_⟩
  · simp [updateHighScore_asteroids]
  · simp [updateHighScore_score]
  · norm_num [tierScore, SCORE_SMALL, SCORE_MED]
  · norm_num [tierScore, SCORE_MED, SCORE_LARGE]

/-- A live bullet parked at the canvas center. -/
def testBullet : Bullet :=
  { x := 480, y := 270, r := 2, vx := 0, vy := 0, dead := false, angle := 0,
    lifetime := 1 }

/-- An already-dead asteroid occupying the same spot. -/
def deadAsteroid : Asteroid := { testAsteroid0 with dead := true }

/-- A collection where the bullet overlaps a dead rock, a live rock, and a
second live rock behind it. -/
def overlapState : GameState :=
  { testState with asteroids := [deadAsteroid, testAsteroid0, testAsteroid0] }

/-- C9 witness: the first-match rule on the concrete three-asteroid fixture
(dead rock skipped, first live rock resolved, second live rock untouched). -/
theorem C9_one_hit_per_bullet_witness :
    (testBullet.dead = false ∧
      overlapState.asteroids = [deadAsteroid] ++ testAsteroid0 :: [testAsteroid0] ∧
      (∀ c ∈ [deadAsteroid], c.dead = true ∨
        circleHit testBullet.circ c.circ = false) ∧
      testAsteroid0.dead = false ∧
      circleHit testBullet.circ testAsteroid0.circ = true) ∧
    (markFirstHit testBullet overlapState.asteroids =
      some ([deadAsteroid] ++ { testAsteroid0 with dead := true } :: [testAsteroid0],
        testAsteroid0) ∧
    (bulletStep zeroFns zeroRng overlapState testBullet).1.dead = true ∧
    (bulletStep zeroFns zeroRng overlapState testBullet).2.1.asteroids =
      ([deadAsteroid] ++ { testAsteroid0 with dead := true } :: [testAsteroid0]) ++
        (Asteroid.split zeroFns testAsteroid0 zeroRng).1 ∧
    (bulletStep zeroFns zeroRng overlapState testBullet).2.1.score =
      overlapState.score + tierScore testAsteroid0.sizeIndex ∧
    tierScore 1 < tierScore 2 ∧ tierScore 0 < tierScore 1) :=
  ⟨⟨rfl, rfl, by simp [deadAsteroid], rfl,
     by norm_num [circleHit, testBullet, testAsteroid0, Bullet.circ, Asteroid.circ,
       CANVAS_W, CANVAS_H]⟩,
   C9_one_hit_per_bullet zeroFns zeroRng overlapState testBullet
     [deadAsteroid] [testAsteroid0] testAsteroid0 rfl rfl
     (by simp [deadAsteroid]) rfl
     (by norm_num [circleHit, testBullet, testAsteroid0, Bullet.circ, Asteroid.circ,
       CANVAS_W, CANVAS_H])⟩

/-! ### MENU / GAME_OVER ticks (C8) -/

/-- C8: a tick in MENU or GAME_OVER performs no world simulation — the whole
state is returned unchanged unless the start (Enter/Space in MENU) or restart
(Enter in GAME_OVER) command is pressed on that tick, in which case the tick
is exactly the corresponding transition. -/
theorem C8_idle_modes (O : RealFns) (input : Input) (dt : ℚ) (g : Rng) (s : GameState)
    (h : s.mode = Mode.MENU ∨ s.mode = Mode.GAME_OVER) :
    (s.mode = Mode.MENU →
      ((input.pressed "Enter" || input.pressed "Space") = false →
        update O input dt g s = (s, g)) ∧
      ((input.pressed "Enter" || input.pressed "Space") = true →
        update O input dt g s = startGame O g s)) ∧
    (s.mode = Mode.GAME_OVER →
      (input.pressed "Enter" = false → update O input dt g s = (s, g)) ∧
      (input.pressed "Enter" = true → update O input dt g s = reset O g s)) := by
  constructor
  · intro hm
    unfold update
    rw [hm]
    dsimp only
    constructor
    · intro hp
      rw [if_neg (by simp [hp])]
    · intro hp
      rw [if_pos (by simp [hp])]
  · intro hm
    unfold update
    rw [hm]
    dsimp only
    constructor
    · intro hp
      rw [if_neg (by simp [hp])]
    · intro hp
      rw [if_pos (by simp [hp])]

/-- The fixture parked on the menu screen. -/
def menuState : GameState := { testState with mode := Mode.MENU }

/-- C8 witness: an idle MENU tick leaves everything unchanged. -/
theorem C8_idle_modes_witness :
    (menuState.mode = Mode.MENU ∨ menuState.mode = Mode.GAME_OVER) ∧
    ((menuState.mode = Mode.MENU →
      ((idleInput.pressed "Enter" || idleInput.pressed "Space") = false →
        update zeroFns idleInput 1 zeroRng menuState = (menuState, zeroRng)) ∧
      ((idleInput.pressed "Enter" || idleInput.pressed "Space") = true →
        update zeroFns idleInput 1 zeroRng menuState =
          startGame zeroFns zeroRng menuState)) ∧
    (menuState.mode = Mode.GAME_OVER →
      (idleInput.pressed "Enter" = false →
        update zeroFns idleInput 1 zeroRng menuState = (menuState, zeroRng)) ∧
      (idleInput.pressed "Enter" = true →
        update zeroFns idleInput 1 zeroRng menuState = reset zeroFns zeroRng menuState))) :=
  ⟨Or.inl rfl, C8_idle_modes zeroFns idleInput 1 zeroRng menuState (Or.inl rfl)⟩

/-! ### The per-step invariant: wave preserved, score monotone, high score
kept at the running maximum -/

/-- Relation between the state before and after one piece of a PLAY tick:
the wave index is unchanged, the score does not decrease, and (assuming the
stored high score already dominates the score) the new high score is the
maximum of the old high score and the new score. -/
def StepOk (s t : GameState) : Prop :=
  t.wave = s.wave ∧ s.score ≤ t.score ∧
  (s.score ≤ s.highScore → t.highScore = max s.highScore t.score)

theorem stepOk_refl (s : GameState) : StepOk s s :=
  ⟨rfl, le_refl _, fun h => (max_eq_left h).symm⟩

theorem stepOk_trans {s t u : GameState} (h1 : StepOk s t) (h2 : StepOk t u) :
    StepOk s u := by
  obtain ⟨hw1, hs1, hh1⟩ := h1
  obtain ⟨hw2, hs2, hh2⟩ := h2
  refine ⟨hw2.trans hw1, hs1.trans hs2, ?_⟩
  intro h
  have ht := hh1 h
  have hts : t.score ≤ t.highScore := by rw [ht]; exact le_max_right _ _
  rw [hh2 hts, ht, max_assoc, max_eq_right hs2]

theorem stepOk_frame {s t : GameState} (hw : t.wave = s.wave) (hs : t.score = s.score)
    (hh : t.highScore = s.highScore) : StepOk s t :=
  ⟨hw, le_of_eq hs.symm, fun h => by rw [hh, hs, max_eq_left h]⟩

theorem stepOk_congr {s t u : GameState} (h : StepOk s t) (hw : u.wave = t.wave)
    (hs : u.score = t.score) (hh : u.highScore = t.highScore) : StepOk s u :=
  stepOk_trans h (stepOk_frame hw hs hh)

/-- `updateHighScore` leaves the score alone and stores exactly
`max highScore score`. -/
theorem updateHighScore_highScore (s : GameState) :
    (updateHighScore s).highScore = max s.highScore s.score := by
  unfold updateHighScore
  split
  · exact (max_eq_left (by assumption)).symm
  · dsimp only
    split
    · exact (max_eq_right (le_of_not_le (by assumption))).symm
    · exact (max_eq_right (le_of_not_le (by assumption))).symm

/-- Applying `updateHighScore` after any wave-preserving, score-nondecreasing,
high-score-preserving modification yields a `StepOk` step. -/
theorem stepOk_updateHighScore {s t : GameState} (hw : t.wave = s.wave)
    (hs : s.score ≤ t.score) (hh : t.highScore = s.highScore) :
    StepOk s (updateHighScore t) := by
  refine ⟨(updateHighScore_wave t).trans hw, ?_, ?_⟩
  · rw [updateHighScore_score]; exact hs
  · intro _
    rw [updateHighScore_highScore, updateHighScore_score, hh]

theorem bulletStep_stepOk (O : RealFns) (g : Rng) (s : GameState) (b : Bullet) :
    StepOk s (bulletStep O g s b).2.1 := by
  unfold bulletStep
  split
  · exact stepOk_refl s
  · split
    · exact stepOk_refl s
    · dsimp only
      rename_i marked a heq
      have hmid : StepOk s (updateHighScore
          { s with asteroids := marked, score := s.score + tierScore a.sizeIndex }) :=
        stepOk_updateHighScore rfl (Nat.le_add_right _ _) rfl
      exact stepOk_congr hmid rfl rfl rfl

theorem bulletsPass_stepOk (O : RealFns) :
    ∀ (bs : List Bullet) (g : Rng) (s : GameState),
      StepOk s (bulletsPass O g s bs).2.1 := by
  intro bs
  induction bs with
  | nil => intro g s; exact stepOk_refl s
  | cons b rest ih =>
    intro g s
    exact stepOk_trans (bulletStep_stepOk O g s b) (ih _ _)

theorem bulletUfoPass_stepOk :
    ∀ (bs : List Bullet) (s : GameState), StepOk s (bulletUfoPass s bs).2 := by
  intro bs
  induction bs with
  | nil => intro s; exact stepOk_refl s
  | cons b rest ih =>
    intro s
    unfold bulletUfoPass
    split
    · rename_i u heq
      split
      · dsimp only
        split
        · have hmid : StepOk s (updateHighScore
              { s with ufo := some u.takeHit.2,
                       score := s.score + UFO_SCORE_VALUE }) :=
            stepOk_updateHighScore rfl (Nat.le_add_right _ _) rfl
          have hs2 : StepOk s
              ({ updateHighScore
                  { s with ufo := some u.takeHit.2,
                           score := s.score + UFO_SCORE_VALUE } with
                 ufo := none }) :=
            stepOk_congr hmid rfl rfl rfl
          exact stepOk_trans hs2 (ih _)
        · have hs1 : StepOk s ({ s with ufo := some u.takeHit.2 }) :=
            stepOk_frame rfl rfl rfl
          exact stepOk_trans hs1 (ih _)
      · exact ih s
    · exact ih s

theorem handleBulletCollisions_stepOk (O : RealFns) (g : Rng) (s : GameState) :
    StepOk s (handleBulletCollisions O g s).1 := by
  unfold handleBulletCollisions
  dsimp only
  exact stepOk_congr
    (stepOk_trans (bulletsPass_stepOk O s.bullets g s) (bulletUfoPass_stepOk _ _))
    rfl rfl rfl

theorem damageShip_stepOk (O : RealFns) (absorb : GameState → GameState) (bonus : Nat)
    (s : GameState) (habs1 : (absorb s).wave = s.wave)
    (habs2 : (absorb s).score = s.score) (habs3 : (absorb s).highScore = s.highScore) :
    StepOk s (damageShip O absorb bonus s).2 := by
  unfold damageShip
  dsimp only
  split
  · split
    · refine stepOk_congr (stepOk_updateHighScore ?_ ?_ ?_) rfl rfl rfl
      · exact habs1
      · show s.score ≤ (absorb s).score + bonus
        rw [habs2]; exact Nat.le_add_right _ _
      · exact habs3
    · exact stepOk_congr (stepOk_frame habs1 habs2 habs3) rfl rfl rfl
  · split
    · exact stepOk_updateHighScore rfl (le_refl _) rfl
    · exact stepOk_frame rfl rfl rfl

theorem laserLoop_stepOk (O : RealFns) :
    ∀ (ls : List UfoLaser) (s : GameState), StepOk s (laserLoop O s ls).2.1 := by
  intro ls
  induction ls with
  | nil => intro s; exact stepOk_refl s
  | cons l rest ih =>
    intro s
    unfold laserLoop
    split
    · exact ih s
    · dsimp only
      split
      · exact damageShip_stepOk O id 0 s rfl rfl rfl
      · exact damageShip_stepOk O id 0 s rfl rfl rfl

theorem shipUfoCheck_stepOk (O : RealFns) (s : GameState) :
    StepOk s (shipUfoCheck O s).2 := by
  unfold shipUfoCheck
  split
  · split
    · exact damageShip_stepOk O id 0 s rfl rfl rfl
    · exact stepOk_refl s
  · exact stepOk_refl s

theorem shipHazardRest_stepOk (O : RealFns) (s : GameState) :
    StepOk s (shipHazardRest O s).2 := by
  unfold shipHazardRest
  split
  · exact stepOk_refl s
  · split
    · dsimp only
      split
      · exact shipUfoCheck_stepOk O s
      · split
        · exact stepOk_trans (shipUfoCheck_stepOk O s)
            (stepOk_congr (laserLoop_stepOk O _ _) rfl rfl rfl)
        · exact shipUfoCheck_stepOk O s
    · exact stepOk_refl s

theorem handleShipHazardCollisions_stepOk (O : RealFns) (s : GameState) :
    StepOk s (handleShipHazardCollisions O s).2 := by
  unfold handleShipHazardCollisions
  split
  · dsimp only
    split
    · exact damageShip_stepOk O _ _ s rfl rfl rfl
    · exact stepOk_trans (damageShip_stepOk O _ _ s rfl rfl rfl)
        (shipHazardRest_stepOk O _)
  · exact shipHazardRest_stepOk O s

theorem applyPowerUpEffect_stepOk (s : GameState) (t : PUType) :
    StepOk s (applyPowerUpEffect s t) := by
  have hbump : ∀ k : Nat,
      StepOk s (updateHighScore { s with score := s.score + k }) := fun k =>
    stepOk_updateHighScore rfl (Nat.le_add_right _ _) rfl
  cases t
  · unfold applyPowerUpEffect
    dsimp only
    split
    · exact hbump 5000
    · split
      · exact stepOk_frame rfl rfl rfl
      · exact stepOk_frame rfl rfl rfl
  · unfold applyPowerUpEffect
    dsimp only
    split
    · exact stepOk_frame rfl rfl rfl
    · exact hbump 2000
  · unfold applyPowerUpEffect
    dsimp only
    split
    · split
      · exact stepOk_frame rfl rfl rfl
      · exact hbump 4000
    · exact hbump 4000
  · unfold applyPowerUpEffect
    dsimp only
    split
    · exact stepOk_frame rfl rfl rfl
    · have hmid : StepOk s (updateHighScore
          { s with ship := s.ship.increaseSpeedLevel.2,
                   score := s.score + 2500 }) :=
        stepOk_updateHighScore rfl (Nat.le_add_right _ _) rfl
      exact hmid

theorem powerupPass_stepOk :
    ∀ (pus : List PowerUp) (s : GameState), StepOk s (powerupPass s pus).2 := by
  intro pus
  induction pus with
  | nil => intro s; exact stepOk_refl s
  | cons pu rest ih =>
    intro s
    unfold powerupPass
    split
    · dsimp only
      have h1 : StepOk s ({ s with powerupsCollected := s.powerupsCollected + 1 }) :=
        stepOk_frame rfl rfl rfl
      exact stepOk_trans (stepOk_trans h1 (applyPowerUpEffect_stepOk _ _)) (ih _)
    · exact ih s

theorem handlePowerupCollisions_stepOk (s : GameState) :
    StepOk s (handlePowerupCollisions s) := by
  unfold handlePowerupCollisions
  exact stepOk_congr (powerupPass_stepOk s.powerups s) rfl rfl rfl

theorem spawnUfoForCurrentWave_stepOk (g : Rng) (s : GameState) :
    StepOk s (spawnUfoForCurrentWave g s).1 := by
  unfold spawnUfoForCurrentWave
  dsimp only
  split
  · exact stepOk_frame rfl rfl rfl
  · exact stepOk_frame rfl rfl rfl

theorem ufoTimerStep_stepOk (dt : ℚ) (g : Rng) (s : GameState) :
    StepOk s (ufoTimerStep dt g s).1 := by
  unfold ufoTimerStep
  split
  · split
    · exact stepOk_refl s
    · dsimp only
      split
      · exact stepOk_trans (stepOk_frame rfl rfl rfl)
          (spawnUfoForCurrentWave_stepOk g _)
      · exact stepOk_frame rfl rfl rfl
  · exact stepOk_refl s

theorem ufoStep_stepOk (O : RealFns) (dt : ℚ) (s : GameState) :
    StepOk s (ufoStep O dt s) := by
  unfold ufoStep
  split
  · dsimp only
    split
    · exact stepOk_frame rfl rfl rfl
    · exact stepOk_frame rfl rfl rfl
  · exact stepOk_refl s

theorem tickShipAndFire_stepOk (O : RealFns) (input : Input) (dt : ℚ) (s : GameState) :
    StepOk s (tickShipAndFire O input dt s) := by
  unfold tickShipAndFire
  dsimp only
  split
  · exact stepOk_frame rfl rfl rfl
  · exact stepOk_frame rfl rfl rfl

theorem tickHazardPhase_stepOk (O : RealFns) (s : GameState) :
    StepOk s (tickHazardPhase O s).1 := by
  unfold tickHazardPhase
  split
  · dsimp only
    split
    · exact handleShipHazardCollisions_stepOk O s
    · exact handleShipHazardCollisions_stepOk O s
  · exact stepOk_refl s

set_option maxHeartbeats 2000000 in
theorem playTickBody_stepOk (O : RealFns) (input : Input) (dt : ℚ) (g : Rng)
    (s : GameState) : StepOk s (playTickBody O input dt g s).1 := by
  unfold playTickBody
  dsimp only
  set s3 := tickEntityUpdates O dt (tickShipAndFire O input dt s) with hs3
  set timed := ufoTimerStep dt g s3 with htimed
  set s5 := ufoStep O dt timed.1 with hs5
  set s6 := { s5 with ufoBullets := s5.ufoBullets.map (UfoLaser.update dt) } with hs6
  set s7 := tickWrapAll s6 with hs7
  set coll := handleBulletCollisions O timed.2 s7 with hcoll
  have h3 : StepOk s s3 :=
    stepOk_trans (tickShipAndFire_stepOk O input dt s) (stepOk_frame rfl rfl rfl)
  have h4 : StepOk s timed.1 := stepOk_trans h3 (ufoTimerStep_stepOk dt g s3)
  have h5 : StepOk s s5 := stepOk_trans h4 (ufoStep_stepOk O dt timed.1)
  have h6 : StepOk s s6 := stepOk_trans h5 (stepOk_frame rfl rfl rfl)
  have h7 : StepOk s s7 := stepOk_trans h6 (stepOk_frame rfl rfl rfl)
  have hc : StepOk s coll.1 :=
    stepOk_trans h7 (handleBulletCollisions_stepOk O timed.2 s7)
  split
  · exact hc
  · split
    · have hz : StepOk s (tickHazardPhase O coll.1).1 :=
        stepOk_trans hc (tickHazardPhase_stepOk O coll.1)
      have hp : StepOk s (handlePowerupCollisions (tickHazardPhase O coll.1).1) :=
        stepOk_trans hz (handlePowerupCollisions_stepOk _)
      have hu : StepOk s
          (updateHighScore (handlePowerupCollisions (tickHazardPhase O coll.1).1)) :=
        stepOk_trans hp (stepOk_updateHighScore rfl (le_refl _) rfl)
      exact stepOk_trans hu (stepOk_frame rfl rfl rfl)
    · exact stepOk_trans hc (tickHazardPhase_stepOk O coll.1)

/-! ### Wave progression (C4) -/

/-- Every asteroid spawned by `spawnWave`'s loop is tier 0, and exactly the
requested count is produced. -/
theorem spawnAsteroids_spec (O : RealFns) (m : ℚ) :
    ∀ (n : Nat) (g : Rng),
      (spawnAsteroids O m n g).1.length = n ∧
      ∀ a ∈ (spawnAsteroids O m n g).1, a.sizeIndex = 0 := by
  intro n
  induction n with
  | zero => intro g; simp [spawnAsteroids]
  | succ k ih =>
    intro g
    constructor
    · simp [spawnAsteroids, (ih _).1]
    · intro a ha
      simp only [spawnAsteroids, List.mem_cons] at ha
      rcases ha with h | h
      · subst h
        exact (Asteroid.create_fields O _ _ _ 0 _ m).2.2.1
      · exact (ih _).2 a h

/-- Behaviour of the wave-progression check: when the asteroid collection is
empty in PLAY mode, the wave index is incremented and exactly
`START_COUNT + wave × GROWTH` tier-0 asteroids are spawned for the new wave
index; under any other condition the state is returned untouched. -/
theorem progressionStep_spec (O : RealFns) (g : Rng) (t : GameState) :
    ((t.asteroids.length = 0 ∧ t.mode = Mode.PLAY) →
      (progressionStep O g t).1.wave = t.wave + 1 ∧
      (progressionStep O g t).1.asteroids.length =
        WAVES_START_COUNT + (t.wave + 1) * WAVES_GROWTH ∧
      ∀ a ∈ (progressionStep O g t).1.asteroids, a.sizeIndex = 0) ∧
    (¬(t.asteroids.length = 0 ∧ t.mode = Mode.PLAY) →
      progressionStep O g t = (t, g)) := by
  constructor
  · intro hcond
    have hnil : t.asteroids = [] := List.length_eq_zero.mp hcond.1
    unfold progressionStep
    rw [if_pos hcond]
    dsimp only
    have hast :
        (resetUfoStateForWave
          (maybeSpawnPowerUp O (spawnWave O g { t with wave := t.wave + 1 }).2
            (spawnWave O g { t with wave := t.wave + 1 }).1).1).asteroids =
        t.asteroids ++
          (spawnAsteroids O (1 + ((t.wave + 1 : Nat) : ℚ) * ASTEROID_SPEED_GROWTH_PER_WAVE)
            (WAVES_START_COUNT + (t.wave + 1) * WAVES_GROWTH) g).1 := rfl
    refine ⟨rfl, ?_, ?_⟩
    · rw [hast, hnil, List.nil_append]
      exact (spawnAsteroids_spec O _ _ _).1
    · intro a ha
      rw [hast, hnil, List.nil_append] at ha
      exact (spawnAsteroids_spec O _ _ _).2 a ha
  · intro hcond
    unfold progressionStep
    rw [if_neg hcond]

/-- C4: during a PLAY tick the simulation body never changes the wave index;
the index is incremented (by exactly one) precisely when the end-of-tick
check sees an empty asteroid collection while still in PLAY mode, and the
freshly spawned wave consists of exactly `START_COUNT + wave × GROWTH` tier-0
asteroids for the incremented wave index. -/
theorem C4_wave_progression (O : RealFns) (input : Input) (dt : ℚ) (g : Rng)
    (s : GameState) (hmode : s.mode = Mode.PLAY) :
    (playTickBody O input dt g s).1.wave = s.wave ∧
    ((update O input dt g s).1.wave =
      if (playTickBody O input dt g s).2.2 = true ∧
          (playTickBody O input dt g s).1.asteroids.length = 0 ∧
          (playTickBody O input dt g s).1.mode = Mode.PLAY
       then s.wave + 1 else s.wave) ∧
    ((playTickBody O input dt g s).2.2 = true ∧
        (playTickBody O input dt g s).1.asteroids.length = 0 ∧
        (playTickBody O input dt g s).1.mode = Mode.PLAY →
      (update O input dt g s).1.asteroids.length =
        WAVES_START_COUNT + (s.wave + 1) * WAVES_GROWTH ∧
      ∀ a ∈ (update O input dt g s).1.asteroids, a.sizeIndex = 0) := by
  have hw : (playTickBody O input dt g s).1.wave = s.wave :=
    (playTickBody_stepOk O input dt g s).1
  have hupd : update O input dt g s =
      (if (playTickBody O input dt g s).2.2 = true then
        progressionStep O (playTickBody O input dt g s).2.1 (playTickBody O input dt g s).1
      else ((playTickBody O input dt g s).1, (playTickBody O input dt g s).2.1)) := by
    unfold update
    rw [hmode]
  have hspec := progressionStep_spec O (playTickBody O input dt g s).2.1
    (playTickBody O input dt g s).1
  refine ⟨hw, ?_, ?_⟩
  · by_cases hgo : (playTickBody O input dt g s).2.2 = true
    · rw [hupd, if_pos hgo]
      by_cases hcond : (playTickBody O input dt g s).1.asteroids.length = 0 ∧
          (playTickBody O input dt g s).1.mode = Mode.PLAY
      · rw [if_pos ⟨hgo, hcond⟩, (hspec.1 hcond).1, hw]
      · rw [if_neg (fun hc => hcond ⟨hc.2.1, hc.2.2⟩), hspec.2 hcond]
        exact hw
    · rw [hupd, if_neg hgo, if_neg (fun hc => hgo hc.1)]
      exact hw
  · rintro ⟨hgo, hlen, hm⟩
    rw [hupd, if_pos hgo]
    obtain ⟨-, hcount, htier⟩ := hspec.1 ⟨hlen, hm⟩
    rw [hw] at hcount
    exact ⟨hcount, htier⟩

/-- C4 witness: the first tick from the empty-collection fixture spawns wave
1 with exactly `START_COUNT + GROWTH` tier-0 asteroids. -/
theorem C4_wave_progression_witness :
    testState.mode = Mode.PLAY ∧
    ((playTickBody zeroFns idleInput 1 zeroRng testState).1.wave = testState.wave ∧
    ((update zeroFns idleInput 1 zeroRng testState).1.wave =
      if (playTickBody zeroFns idleInput 1 zeroRng testState).2.2 = true ∧
          (playTickBody zeroFns idleInput 1 zeroRng testState).1.asteroids.length = 0 ∧
          (playTickBody zeroFns idleInput 1 zeroRng testState).1.mode = Mode.PLAY
       then testState.wave + 1 else testState.wave) ∧
    ((playTickBody zeroFns idleInput 1 zeroRng testState).2.2 = true ∧
        (playTickBody zeroFns idleInput 1 zeroRng testState).1.asteroids.length = 0 ∧
        (playTickBody zeroFns idleInput 1 zeroRng testState).1.mode = Mode.PLAY →
      (update zeroFns idleInput 1 zeroRng testState).1.asteroids.length =
        WAVES_START_COUNT + (testState.wave + 1) * WAVES_GROWTH ∧
      ∀ a ∈ (update zeroFns idleInput 1 zeroRng testState).1.asteroids,
        a.sizeIndex = 0)) :=
  ⟨rfl, C4_wave_progression zeroFns idleInput 1 zeroRng testState rfl⟩

/-! ### Score monotonicity and high-score tracking (C5) -/

theorem progressionStep_score (O : RealFns) (g : Rng) (s : GameState) :
    (progressionStep O g s).1.score = s.score := by
  unfold progressionStep
  split <;> rfl

theorem progressionStep_highScore (O : RealFns) (g : Rng) (s : GameState) :
    (progressionStep O g s).1.highScore = s.highScore := by
  unfold progressionStep
  split <;> rfl

/-- C5: within a PLAY tick the score never decreases; `updateHighScore`
stores exactly `max highScore score` after every scoring event; and across
the whole tick the stored high score remains the maximum score ever observed
(assuming it already dominated the score at the start of the tick). -/
theorem C5_score_highscore (O : RealFns) (input : Input) (dt : ℚ) (g : Rng)
    (s : GameState) (hmode : s.mode = Mode.PLAY) (hinv : s.score ≤ s.highScore) :
    s.score ≤ (update O input dt g s).1.score ∧
    (updateHighScore s).highScore = max s.highScore s.score ∧
    (update O input dt g s).1.highScore =
      max s.highScore (update O input dt g s).1.score := by
  have hbody := playTickBody_stepOk O input dt g s
  have hupd : update O input dt g s =
      (if (playTickBody O input dt g s).2.2 = true then
        progressionStep O (playTickBody O input dt g s).2.1 (playTickBody O input dt g s).1
      else ((playTickBody O input dt g s).1, (playTickBody O input dt g s).2.1)) := by
    unfold update
    rw [hmode]
  by_cases hgo : (playTickBody O input dt g s).2.2 = true
  · rw [hupd, if_pos hgo]
    refine ⟨?_, updateHighScore_highScore s, ?_⟩
    · rw [progressionStep_score]
      exact hbody.2.1
    · rw [progressionStep_score, progressionStep_highScore]
      exact hbody.2.2 hinv
  · rw [hupd, if_neg hgo]
    exact ⟨hbody.2.1, updateHighScore_highScore s, hbody.2.2 hinv⟩

/-- C5 witness: the score/high-score rule on the concrete PLAY fixture. -/
theorem C5_score_highscore_witness :
    (testState.mode = Mode.PLAY ∧ testState.score ≤ testState.highScore) ∧
    (testState.score ≤ (update zeroFns idleInput 1 zeroRng testState).1.score ∧
    (updateHighScore testState).highScore = max testState.highScore testState.score ∧
    (update zeroFns idleInput 1 zeroRng testState).1.highScore =
      max testState.highScore (update zeroFns idleInput 1 zeroRng testState).1.score) :=
  ⟨⟨rfl, le_refl 0⟩,
   C5_score_highscore zeroFns idleInput 1 zeroRng testState rfl (le_refl 0)⟩

end Rockbuster
